import Mathlib

/-!
Shallow embedding of the cloud-hypervisor-provider reconciliation and VMM
management subsystem (Go), together with proofs about the behaviour its
specification claims.

Conventions of the embedding:
* Go strings are Lean `String`s (or `List Char` where we reason about
  splitting); Go `[]byte` is `List Nat` with every entry < 256.
* Go `error` values are the inductive `GoErr`; a Go `error` result that may
  be `nil` is `Option GoErr` (`none` = `nil`).  `fmt.Errorf("...: %w", err)`
  is `GoErr.errorf msg inner`; `errors.Is` is `GoErr.goIs` / `errsIs`
  (note `errors.Is(nil, target) = false`, which `errsIs none t = false`
  mirrors).
* Effectful calls (REST to the hypervisor, the store, plugins, QMP, the
  filesystem) are modelled by environments that fix each call's outcome,
  and the functions additionally return the list of calls they issued
  (their `Action` trace), in order.
-/

set_option maxRecDepth 4000

namespace CHP

/-- Model of Go error values used by the provider.  `notFound` is
`vmm.ErrNotFound`, `storeNotFound` is `store.ErrNotFound`,
`vmNotCreated` is `vmm.ErrVmNotCreated`, `pulling` is
`ociImage.ErrImagePulling`; `errorf` is `fmt.Errorf` with optional `%w`
wrapped error; `transport` is a client transport error; `invalidStatus`
is the error made by `vmm.validateStatus`; `nilDeref` marks a Go nil
pointer dereference (a panic in Go). -/
inductive GoErr where
  | notFound : GoErr
  | storeNotFound : GoErr
  | vmNotCreated : GoErr
  | pulling : GoErr
  | transport (msg : String) : GoErr
  | invalidStatus (status : Nat) : GoErr
  | errorf (msg : String) : GoErr
  | errorfW (msg : String) (inner : GoErr) : GoErr
  | nilDeref : GoErr
deriving DecidableEq, Repr

/-- Build `fmt.Errorf(msg+": %w", err)` from a possibly-nil wrapped error:
wrapping `nil` still yields a non-nil error (with no unwrap chain). -/
def wrapf (msg : String) : Option GoErr → GoErr
  | none => .errorf msg
  | some e => .errorfW msg e

/-- Go `errors.Is(e, target)` for a sentinel target: unwraps the `%w`
chain of `errorfW`. -/
def GoErr.goIs : GoErr → GoErr → Bool
  | e, t =>
    e == t ||
      match e with
      | .errorfW _ inner => inner.goIs t
      | _ => false

/-- Go `errors.Is(err, target)` where `err` may be `nil`:
`errors.Is(nil, target)` is `false`. -/
def errsIs : Option GoErr → GoErr → Bool
  | none, _ => false
  | some e, t => e.goIs t

/-- vmm/socket.go `validateStatus`: any response with status in 200..299
is accepted, everything else is an error carrying the status code. -/
def validateStatus (status : Nat) : Option GoErr :=
  if 200 ≤ status && status < 300 then none
  else some (.invalidStatus status)

/-- cloud-hypervisor client `VmInfo.State` values used by the provider. -/
inductive VmState where
  | created
  | running
  | shutdown
  | paused
deriving DecidableEq, Repr

/-- client.DiskConfig (the fields the reconciler reads/writes). -/
structure DiskConfig where
  id : Option String
  path : Option String := none
  vhostUser : Option Bool := none
  vhostSocket : Option String := none
deriving DecidableEq, Repr

/-- client.DeviceConfig. -/
structure DeviceConfig where
  id : Option String
  path : Option String := none
deriving DecidableEq, Repr

/-- client.PlatformConfig (the field the reconciler reads). -/
structure PlatformConfig where
  uuid : Option String
deriving DecidableEq, Repr

/-- client.VmConfig (the fields the reconciler reads). -/
structure VmConfig where
  disks : Option (List DiskConfig)
  devices : Option (List DeviceConfig)
  platform : Option PlatformConfig
deriving DecidableEq, Repr

/-- client.VmInfo (the fields the reconciler reads). -/
structure VmInfo where
  config : VmConfig
  state : VmState
deriving DecidableEq, Repr

/-- The exact non-2xx body that Manager.GetVM maps to ErrVmNotCreated. -/
def vmNotCreatedBody : String :=
  "Error from API: The VM info is not available: VM is not created"

/-- An HTTP response from the hypervisor control socket, as seen by the
generated client: status code, raw body, and the parsed JSON200 payload
(present only when the body parsed as a VmInfo). -/
structure VmResponse where
  statusCode : Nat
  body : String
  json200 : Option VmInfo
deriving DecidableEq, Repr

/-- Response handling of Manager.GetVM (part_010 lines 170-178): validate
the status; on failure map the exact "VM is not created" body to
ErrVmNotCreated and any other body to the validateStatus error; on a 2xx
return the parsed JSON200 payload. -/
def getVMResponse (resp : VmResponse) : Except GoErr (Option VmInfo) :=
  match validateStatus resp.statusCode with
  | some e =>
      if resp.body = vmNotCreatedBody then .error .vmNotCreated
      else .error e
  | none => .ok resp.json200

end CHP

/-- C6: GetVM returns the parsed VmInfo payload for every response with
status in 200-299; a non-2xx response whose body is exactly the
"VM is not created" marker yields the distinct typed error
`GoErr.vmNotCreated`; every other non-2xx response yields the generic
invalid-status error, which is not `vmNotCreated`. -/
theorem C6_getVM_classifies (resp : CHP.VmResponse) :
    (200 ≤ resp.statusCode → resp.statusCode < 300 →
      CHP.getVMResponse resp = .ok resp.json200) ∧
    (¬ (200 ≤ resp.statusCode ∧ resp.statusCode < 300) →
      resp.body = CHP.vmNotCreatedBody →
      CHP.getVMResponse resp = .error .vmNotCreated) ∧
    (¬ (200 ≤ resp.statusCode ∧ resp.statusCode < 300) →
      resp.body ≠ CHP.vmNotCreatedBody →
      CHP.getVMResponse resp = .error (.invalidStatus resp.statusCode) ∧
        CHP.GoErr.invalidStatus resp.statusCode ≠ .vmNotCreated) := by
  refine ⟨?_, ?_, ?_⟩
  · intro h1 h2
    simp [CHP.getVMResponse, CHP.validateStatus, h1, h2]
  · intro h hb
    have : ¬ (200 ≤ resp.statusCode && resp.statusCode < 300) = true := by
      simpa [Bool.and_eq_true, decide_eq_true_eq] using h
    simp [CHP.getVMResponse, CHP.validateStatus, this, hb]
  · intro h hb
    have : ¬ (200 ≤ resp.statusCode && resp.statusCode < 300) = true := by
      simpa [Bool.and_eq_true, decide_eq_true_eq] using h
    exact ⟨by simp [CHP.getVMResponse, CHP.validateStatus, this, hb], by simp⟩

/-- C6 witness: concrete responses exercising all three branches of the
classification. -/
theorem C6_getVM_classifies_witness :
    CHP.getVMResponse ⟨200, "", some ⟨⟨none, none, none⟩, .running⟩⟩ =
      .ok (some ⟨⟨none, none, none⟩, .running⟩) ∧
    CHP.getVMResponse ⟨500, CHP.vmNotCreatedBody, none⟩ = .error .vmNotCreated ∧
    CHP.getVMResponse ⟨500, "boom", none⟩ = .error (.invalidStatus 500) := by
  refine ⟨?_, ?_, ?_⟩
  · exact (C6_getVM_classifies ⟨200, "", some ⟨⟨none, none, none⟩, .running⟩⟩).1
      (by decide) (by decide)
  · exact (C6_getVM_classifies ⟨500, CHP.vmNotCreatedBody, none⟩).2.1
      (by decide) rfl
  · exact ((C6_getVM_classifies ⟨500, "boom", none⟩).2.2
      (by decide) (by decide)).1

namespace CHP

/-- Prepend a character to the first part of a split result. -/
def consHead (c : Char) : List (List Char) → List (List Char)
  | [] => [[c]]
  | p :: ps => (c :: p) :: ps

/-- Go `strings.Split(s, "//")` on char lists: split at the leftmost,
non-overlapping occurrences of the two-character separator. -/
def splitDD : List Char → List (List Char)
  | [] => [[]]
  | [c] => [[c]]
  | c1 :: c2 :: rest =>
    if c1 = '/' ∧ c2 = '/' then [] :: splitDD rest
    else consHead c1 (splitDD (c2 :: rest))

/-- Go `strings.Contains(s, "//")` on char lists. -/
def containsDD : List Char → Bool
  | [] => false
  | [_] => false
  | c1 :: c2 :: rest => (decide (c1 = '/') && decide (c2 = '/')) || containsDD (c2 :: rest)

/-- vmm getNicID (part_010 line 465): the device id is `NIC//<nicName>`. -/
def getNicID (nicName : List Char) : List Char :=
  'N' :: 'I' :: 'C' :: '/' :: '/' :: nicName

/-- controller getNicName (machine_controller.go lines 685-696): split the
device id on `//`; exactly two parts with first part `NIC` yields the
second part, anything else yields nothing. -/
def getNicName (id : List Char) : Option (List Char) :=
  match splitDD id with
  | [p0, p1] => if p0 = ['N', 'I', 'C'] then some p1 else none
  | _ => none

theorem splitDD_ne_nil (xs : List Char) : splitDD xs ≠ [] := by
  induction xs using splitDD.induct with
  | case1 => simp [splitDD]
  | case2 c => simp [splitDD]
  | case3 c1 c2 rest hdd ih =>
    simp only [splitDD, if_pos hdd]
    simp
  | case4 c1 c2 rest hdd ih =>
    simp only [splitDD, if_neg hdd]
    cases hs : splitDD (c2 :: rest) with
    | nil => simp [consHead]
    | cons p ps => simp [consHead]

theorem splitDD_of_not_containsDD (xs : List Char)
    (h : containsDD xs = false) : splitDD xs = [xs] := by
  induction xs using splitDD.induct with
  | case1 => rfl
  | case2 c => rfl
  | case3 c1 c2 rest hdd ih =>
    exfalso
    simp [containsDD, hdd.1, hdd.2] at h
  | case4 c1 c2 rest hdd ih =>
    have hc : containsDD (c2 :: rest) = false := by
      simp only [containsDD, Bool.or_eq_false_iff] at h
      exact h.2
    simp only [splitDD, if_neg hdd, ih hc, consHead]

/-- Go-faithful join with the `//` separator (inverse of `splitDD`). -/
def joinDD : List (List Char) → List Char
  | [] => []
  | [p] => p
  | p :: ps => p ++ '/' :: '/' :: joinDD ps

theorem joinDD_splitDD (xs : List Char) : joinDD (splitDD xs) = xs := by
  induction xs using splitDD.induct with
  | case1 => rfl
  | case2 c => rfl
  | case3 c1 c2 rest hdd ih =>
    simp only [splitDD, if_pos hdd]
    cases hs : splitDD rest with
    | nil => exact absurd hs (splitDD_ne_nil rest)
    | cons q qs =>
      rw [hs] at ih
      simp [joinDD, ih, hdd.1, hdd.2]
  | case4 c1 c2 rest hdd ih =>
    simp only [splitDD, if_neg hdd]
    cases hs : splitDD (c2 :: rest) with
    | nil => exact absurd hs (splitDD_ne_nil _)
    | cons p ps =>
      rw [hs] at ih
      cases ps with
      | nil =>
        simp only [joinDD] at ih
        simp [consHead, joinDD, ih]
      | cons q qs =>
        simp only [joinDD] at ih
        simp only [consHead, joinDD, List.cons_append]
        rw [ih]

theorem splitDD_nic_front (n : List Char) :
    splitDD ('N' :: 'I' :: 'C' :: '/' :: '/' :: n) = ['N', 'I', 'C'] :: splitDD n := by
  have h1 : splitDD ('/' :: '/' :: n) = [] :: splitDD n := by
    simp [splitDD]
  have h2 : splitDD ('C' :: '/' :: '/' :: n) = ['C'] :: splitDD n := by
    simp [splitDD, consHead, h1]
  have h3 : splitDD ('I' :: 'C' :: '/' :: '/' :: n) = ['I', 'C'] :: splitDD n := by
    simp [splitDD, consHead, h2]
  simp [splitDD, consHead, h3]

theorem getNicName_eq_some (id x : List Char) (h : getNicName id = some x) :
    id = getNicID x := by
  unfold getNicName at h
  cases hs : splitDD id with
  | nil =>
    rw [hs] at h
    exact Option.noConfusion h
  | cons p0 ps =>
    cases ps with
    | nil =>
      rw [hs] at h
      exact Option.noConfusion h
    | cons p1 ps2 =>
      cases ps2 with
      | cons a as =>
        rw [hs] at h
        exact Option.noConfusion h
      | nil =>
        rw [hs] at h
        have h' : (if p0 = ['N', 'I', 'C'] then some p1 else none) = some x := h
        by_cases hp : p0 = ['N', 'I', 'C']
        · rw [if_pos hp] at h'
          have hx : p1 = x := Option.some.inj h'
          have hj := joinDD_splitDD id
          rw [hs, hp, hx] at hj
          rw [← hj]
          rfl
        · rw [if_neg hp] at h'
          exact Option.noConfusion h'

end CHP

/-- C9: encoding a NIC name that does not contain the `//` delimiter and
decoding it yields the original name, and getNicName returns nothing for
every device id that is not of the form `NIC//<name>`, so non-NIC device
ids are never correlated to a NIC. -/
theorem C9_nic_id_roundtrip :
    (∀ n : List Char, CHP.containsDD n = false →
      CHP.getNicName (CHP.getNicID n) = some n) ∧
    (∀ id : List Char, (∀ name : List Char, id ≠ CHP.getNicID name) →
      CHP.getNicName id = none) := by
  constructor
  · intro n hn
    unfold CHP.getNicName CHP.getNicID
    rw [CHP.splitDD_nic_front, CHP.splitDD_of_not_containsDD n hn]
    simp
  · intro id hid
    cases h : CHP.getNicName id with
    | none => rfl
    | some x => exact absurd (CHP.getNicName_eq_some id x h) (hid x)

/-- C9 witness: the round trip on the concrete NIC name `my-nic`, and a
disk-handle-like id that is not recognized as a NIC id. -/
theorem C9_nic_id_roundtrip_witness :
    CHP.getNicName (CHP.getNicID ['m', 'y', '-', 'n', 'i', 'c']) =
      some ['m', 'y', '-', 'n', 'i', 'c'] ∧
    CHP.getNicName ['8', 'F', 'A', 'B'] = none := by
  constructor
  · exact C9_nic_id_roundtrip.1 ['m', 'y', '-', 'n', 'i', 'c'] (by decide)
  · refine C9_nic_id_roundtrip.2 ['8', 'F', 'A', 'B'] ?_
    intro name h
    rw [CHP.getNicID] at h
    exact absurd (List.head_eq_of_cons_eq h) (by decide)

namespace CHP

/-- api.VolumeState (with the Prepared state used by the controller). -/
inductive VolState where
  | pending
  | prepared
  | attached
deriving DecidableEq, Repr

/-- api.VolumeType; `unspecified` is the Go zero value `""`. -/
inductive VolType where
  | unspecified
  | socket
  | file
deriving DecidableEq, Repr

/-- api.NetworkInterfaceState. -/
inductive NicState where
  | pending
  | prepared
  | attached
deriving DecidableEq, Repr

/-- api.PowerState. -/
inductive PowerState where
  | powerOn
  | powerOff
deriving DecidableEq, Repr

/-- api.MachineState. -/
inductive MachineState where
  | pending
  | running
  | suspended
  | terminating
  | terminated
deriving DecidableEq, Repr

/-- api.VolumeStatus. -/
structure VolumeStatus where
  name : String
  type : VolType
  path : String
  handle : String
  state : VolState
  size : Int
deriving DecidableEq, Repr

/-- api.EmptyDiskSpec. -/
structure EmptyDiskSpec where
  size : Int
deriving DecidableEq, Repr

/-- api local disk spec (name, optional image ref and size, used by the
localdisk plugin). -/
structure LocalDiskSpec where
  size : Int
  image : Option String := none
deriving DecidableEq, Repr

/-- api.VolumeConnection (opaque to the claims; carried for dispatch). -/
structure VolumeConnection where
  driver : String
  handle : String
deriving DecidableEq, Repr

/-- api.VolumeSpec; `deletedAt` models the `*time.Time` deletion
timestamp (`none` = nil). -/
structure VolumeSpec where
  name : String
  device : String
  emptyDisk : Option EmptyDiskSpec := none
  localDisk : Option LocalDiskSpec := none
  connection : Option VolumeConnection := none
  deletedAt : Option Nat := none
deriving DecidableEq, Repr

/-- api network interface spec entry of a machine. -/
structure NicSpec where
  name : String
  networkId : String
  ips : List String := []
  deletedAt : Option Nat := none
deriving DecidableEq, Repr

/-- api.NetworkInterfaceStatus entry of a machine. -/
structure NicStatus where
  name : String
  handle : String
  path : Option String := none
  state : NicState
deriving DecidableEq, Repr

/-- provider-utils Metadata (the fields the controller reads). -/
structure Metadata where
  id : String
  finalizers : List String := []
  deletedAt : Option Nat := none
deriving DecidableEq, Repr

/-- api.MachineSpec. -/
structure MachineSpec where
  power : PowerState
  cpu : Int
  memoryBytes : Int
  image : Option String := none
  ignition : Option (List Nat) := none
  apiSocketPath : Option String := none
  volumes : List VolumeSpec := []
  networkInterfaces : List NicSpec := []
deriving DecidableEq, Repr

/-- api.MachineStatus. -/
structure MachineStatus where
  volumeStatus : List VolumeStatus := []
  networkInterfaceStatus : List NicStatus := []
  state : MachineState := .pending
deriving DecidableEq, Repr

/-- api.Machine. -/
structure Machine where
  metadata : Metadata
  spec : MachineSpec
  status : MachineStatus
deriving DecidableEq, Repr

end CHP

namespace CHP

/-- Left-rotate a 32-bit word by `n` bits. -/
def rotl32 (n x : Nat) : Nat :=
  ((x <<< n) ||| (x >>> (32 - n))) % 2 ^ 32

/-- SHA-1 round function (FIPS 180-4, crypto/sha1). -/
def sha1F (t b c d : Nat) : Nat :=
  if t < 20 then (b &&& c) ||| (((2 ^ 32 - 1) ^^^ b) &&& d)
  else if t < 40 then (b ^^^ c) ^^^ d
  else if t < 60 then ((b &&& c) ||| (b &&& d)) ||| (c &&& d)
  else (b ^^^ c) ^^^ d

/-- SHA-1 round constants. -/
def sha1K (t : Nat) : Nat :=
  if t < 20 then 0x5A827999
  else if t < 40 then 0x6ED9EBA1
  else if t < 60 then 0x8F1BBCDC
  else 0xCA62C1D6

/-- The five SHA-1 chaining words. -/
structure Sha1State where
  h0 : Nat
  h1 : Nat
  h2 : Nat
  h3 : Nat
  h4 : Nat
deriving DecidableEq, Repr

/-- SHA-1 initial state. -/
def sha1Init : Sha1State :=
  ⟨0x67452301, 0xEFCDAB89, 0x98BADCFE, 0x10325476, 0xC3D2E1F0⟩

/-- Message-schedule expansion from 16 to 80 words. -/
def sha1Schedule (w16 : Array Nat) : Array Nat :=
  (List.range 64).foldl
    (fun ws k =>
      let i := 16 + k
      ws.push (rotl32 1
        (((ws.getD (i - 3) 0 ^^^ ws.getD (i - 8) 0) ^^^ ws.getD (i - 14) 0) ^^^
          ws.getD (i - 16) 0)))
    w16

/-- One SHA-1 block compression over an 80-word schedule. -/
def sha1Compress (st : Sha1State) (w : Array Nat) : Sha1State :=
  let step := fun (s : Nat × Nat × Nat × Nat × Nat) (t : Nat) =>
    let a := s.1
    let b := s.2.1
    let c := s.2.2.1
    let d := s.2.2.2.1
    let e := s.2.2.2.2
    let tmp := (((rotl32 5 a + sha1F t b c d) + e + sha1K t) + w.getD t 0) % 2 ^ 32
    (tmp, a, rotl32 30 b, c, d)
  let r := (List.range 80).foldl step (st.h0, st.h1, st.h2, st.h3, st.h4)
  ⟨(st.h0 + r.1) % 2 ^ 32, (st.h1 + r.2.1) % 2 ^ 32, (st.h2 + r.2.2.1) % 2 ^ 32,
    (st.h3 + r.2.2.2.1) % 2 ^ 32, (st.h4 + r.2.2.2.2) % 2 ^ 32⟩

/-- A big-endian 32-bit word from four bytes. -/
def beWord (b0 b1 b2 b3 : Nat) : Nat :=
  (b0 % 256) * 2 ^ 24 + (b1 % 256) * 2 ^ 16 + (b2 % 256) * 2 ^ 8 + b3 % 256

/-- Group a 64-byte block into 16 big-endian words. -/
def words16 : List Nat → List Nat
  | b0 :: b1 :: b2 :: b3 :: rest => beWord b0 b1 b2 b3 :: words16 rest
  | _ => []

/-- The 8-byte big-endian encoding of the bit length, as appended by
SHA-1 padding. -/
def beBytes8 (n : Nat) : List Nat :=
  [(n >>> 56) % 256, (n >>> 48) % 256, (n >>> 40) % 256, (n >>> 32) % 256,
   (n >>> 24) % 256, (n >>> 16) % 256, (n >>> 8) % 256, n % 256]

/-- SHA-1 padding: append 0x80, zeros to 56 mod 64, and the bit length. -/
def sha1Pad (msg : List Nat) : List Nat :=
  let padZeros := (64 - (msg.length + 9) % 64) % 64
  msg ++ 0x80 :: (List.replicate padZeros 0 ++ beBytes8 (8 * msg.length))

/-- Split a byte list into 64-byte chunks. -/
def chunks64 (l : List Nat) : List (List Nat) :=
  if h : l = [] then []
  else l.take 64 :: chunks64 (l.drop 64)
termination_by l.length
decreasing_by
  simp only [List.length_drop]
  exact Nat.sub_lt (List.length_pos.mpr h) (by decide)

/-- SHA-1 of a byte message, as the five chaining words. -/
def sha1Hash (msg : List Nat) : Sha1State :=
  (chunks64 (sha1Pad msg)).foldl
    (fun st blk => sha1Compress st (sha1Schedule (Array.mk (words16 blk))))
    sha1Init

/-- UTF-8 encoding of one Unicode scalar value (Go string bytes). -/
def utf8Bytes (c : Nat) : List Nat :=
  if c < 0x80 then [c]
  else if c < 0x800 then [0xC0 ||| (c >>> 6), 0x80 ||| (c &&& 0x3F)]
  else if c < 0x10000 then
    [0xE0 ||| (c >>> 12), 0x80 ||| ((c >>> 6) &&& 0x3F), 0x80 ||| (c &&& 0x3F)]
  else
    [0xF0 ||| (c >>> 18), 0x80 ||| ((c >>> 12) &&& 0x3F), 0x80 ||| ((c >>> 6) &&& 0x3F),
     0x80 ||| (c &&& 0x3F)]

/-- Go `[]byte(s)`: the UTF-8 bytes of a string. -/
def strBytes (s : String) : List Nat :=
  (s.data.map (fun ch => utf8Bytes ch.toNat)).flatten

/-- Big-endian bytes of one 32-bit word (Go binary.BigEndian). -/
def beBytes4 (w : Nat) : List Nat :=
  [(w >>> 24) % 256, (w >>> 16) % 256, (w >>> 8) % 256, w % 256]

/-- Lowercase hex digit (Go encoding/hex). -/
def hexDigitLower (n : Nat) : Char :=
  if n < 10 then Char.ofNat (48 + n) else Char.ofNat (97 + (n - 10))

/-- Go hex.EncodeToString on a byte list, as chars. -/
def hexEncode (bytes : List Nat) : List Char :=
  (bytes.map (fun b => [hexDigitLower (b / 16), hexDigitLower (b % 16)])).flatten

/-- Go strings.ToUpper restricted to ASCII letters (hex digits). -/
def upChar (c : Char) : Char :=
  if 97 ≤ c.toNat && c.toNat ≤ 122 then Char.ofNat (c.toNat - 32) else c

/-- The localdisk `wwnBytes[0] |= 0x80` step. -/
def setTopBit : List Nat → List Nat
  | [] => []
  | b :: rest => (b ||| 0x80) :: rest

/-- localdisk generateWWN, byte stage: first 8 bytes of
`sha1(machineID + ":" + diskName)` with the high bit of the first byte
forced on. -/
def wwnBytes (machineID diskName : String) : List Nat :=
  let st := sha1Hash (strBytes (machineID ++ ":" ++ diskName))
  setTopBit (beBytes4 st.h0 ++ beBytes4 st.h1)

/-- localdisk generateWWN (localdisk.go lines 129-137). -/
def generateWWN (machineID diskName : String) : String :=
  String.mk ((hexEncode (wwnBytes machineID diskName)).map upChar)

/-- localdisk defaultSize: 500 MiB. -/
def defaultSize : Int := 500 * 1024 * 1024

/-- path of the machine-scoped volume dir used by the localdisk plugin
(host.Paths.MachineVolumeDir; the exact layout is irrelevant to the
claims, only its determinism in machineID and name matters). -/
def ldVolumeDir (machineID name : String) : String :=
  machineID ++ "/volumes/empty-disk/" ++ name

/-- localdisk diskFilename (localdisk.go line 64-66). -/
def ldDiskFilename (machineID name : String) : String :=
  ldVolumeDir machineID name ++ "/disk.raw"

/-- Outcomes of the filesystem and image-cache calls made by the
localdisk Apply: `mkdirAll` for os.MkdirAll, `statDisk` for os.Stat on
the disk file (`none` = file present, `fsNotExist` = absent), `imageGet`
for imageCache.Get (yielding the rootfs path), `rawCreate` for
raw.Create, `chmod` for os.Chmod. -/
structure LdEnv where
  mkdirAll : Option GoErr
  statDisk : Option GoErr
  imageGet : Except GoErr String
  rawCreate : Option GoErr
  chmod : Option GoErr
deriving Repr

/-- Sentinel for os.ErrNotExist in this embedding. -/
def fsNotExist : GoErr := .errorf "file does not exist"

/-- localdisk plugin.Apply (localdisk.go lines 68-123): make the volume
dir, default the size, create the raw disk file if absent (from the
image or sparse), and return a Prepared status whose handle is the
generated WWN. -/
def localDiskApply (env : LdEnv) (spec : VolumeSpec) (machineID : String) :
    Except GoErr VolumeStatus :=
  match spec.localDisk with
  | none => .error .nilDeref
  | some ld =>
    match env.mkdirAll with
    | some e => .error e
    | none =>
      let size := if ld.size = 0 then defaultSize else ld.size
      let createStep : Option GoErr :=
        match env.statDisk with
        | none => none
        | some statErr =>
          if statErr.goIs fsNotExist then
            match (match ld.image with
                   | some _ =>
                     match env.imageGet with
                     | .error e => some e
                     | .ok _ => none
                   | none => none) with
            | some e => some e
            | none =>
              match env.rawCreate with
              | some e => some (.errorfW "error creating disk" e)
              | none =>
                match env.chmod with
                | some e => some (.errorfW "error changing disk file mode" e)
                | none => none
          else some (.errorfW "error stat-ing disk" statErr)
      match createStep with
      | some e => .error e
      | none =>
        .ok
          { name := spec.name
            type := .file
            path := ldDiskFilename machineID spec.name
            handle := generateWWN machineID spec.name
            state := .prepared
            size := size }

end CHP

namespace CHP

/-- Uppercase hex digit predicate (0-9 or A-F). -/
def isUpperHexDigit (c : Char) : Bool :=
  (48 ≤ c.toNat && c.toNat ≤ 57) || (65 ≤ c.toNat && c.toNat ≤ 70)

theorem lor128_bounds : ∀ b : Fin 256, 128 ≤ (b.val ||| 128) ∧ (b.val ||| 128) < 256 := by
  decide

theorem upHex_digit : ∀ n : Fin 16, isUpperHexDigit (upChar (hexDigitLower n.val)) = true := by
  decide

theorem wwnBytes_cons (m n : String) :
    wwnBytes m n =
      (((sha1Hash (strBytes (m ++ ":" ++ n))).h0 >>> 24) % 256 ||| 128) ::
        [((sha1Hash (strBytes (m ++ ":" ++ n))).h0 >>> 16) % 256,
         ((sha1Hash (strBytes (m ++ ":" ++ n))).h0 >>> 8) % 256,
         (sha1Hash (strBytes (m ++ ":" ++ n))).h0 % 256,
         ((sha1Hash (strBytes (m ++ ":" ++ n))).h1 >>> 24) % 256,
         ((sha1Hash (strBytes (m ++ ":" ++ n))).h1 >>> 16) % 256,
         ((sha1Hash (strBytes (m ++ ":" ++ n))).h1 >>> 8) % 256,
         (sha1Hash (strBytes (m ++ ":" ++ n))).h1 % 256] := by
  simp [wwnBytes, beBytes4, setTopBit]

theorem wwnBytes_length (m n : String) : (wwnBytes m n).length = 8 := by
  rw [wwnBytes_cons]
  rfl

theorem wwnBytes_head_high (m n : String) :
    ∃ b rest, wwnBytes m n = b :: rest ∧ 128 ≤ b ∧ b < 256 := by
  rw [wwnBytes_cons]
  refine ⟨_, _, rfl, ?_, ?_⟩
  · exact (lor128_bounds ⟨_ % 256, Nat.mod_lt _ (by decide)⟩).1
  · exact (lor128_bounds ⟨_ % 256, Nat.mod_lt _ (by decide)⟩).2

theorem wwnBytes_lt (m n : String) : ∀ b ∈ wwnBytes m n, b < 256 := by
  rw [wwnBytes_cons]
  intro b hb
  simp only [List.mem_cons, List.not_mem_nil, or_false] at hb
  rcases hb with h | h | h | h | h | h | h | h <;> subst h
  · exact (lor128_bounds ⟨_ % 256, Nat.mod_lt _ (by decide)⟩).2
  all_goals exact Nat.mod_lt _ (by decide)

theorem hexEncode_length (l : List Nat) : (hexEncode l).length = 2 * l.length := by
  induction l with
  | nil => rfl
  | cons b rest ih =>
    simp only [hexEncode, List.map_cons, List.flatten_cons, List.length_append,
      List.length_cons] at ih ⊢
    simp only [List.length_nil]
    omega

theorem hexEncode_chars (l : List Nat) (hl : ∀ b ∈ l, b < 256) :
    ∀ c ∈ hexEncode l, isUpperHexDigit (upChar c) = true := by
  intro c hc
  simp only [hexEncode] at hc
  obtain ⟨cl, hcl, hcmem⟩ := List.mem_flatten.mp hc
  obtain ⟨b, hb, rfl⟩ := List.mem_map.mp hcl
  have hblt : b < 256 := hl b hb
  simp only [List.mem_cons, List.mem_singleton] at hcmem
  rcases hcmem with rfl | rfl | hfalse
  · exact upHex_digit ⟨b / 16, Nat.div_lt_iff_lt_mul (by decide) |>.mpr hblt⟩
  · exact upHex_digit ⟨b % 16, Nat.mod_lt _ (by decide)⟩
  · exact absurd hfalse (List.not_mem_nil c)

theorem generateWWN_length (m n : String) : (generateWWN m n).length = 16 := by
  show ((hexEncode (wwnBytes m n)).map upChar).length = 16
  rw [List.length_map, hexEncode_length, wwnBytes_length]

theorem generateWWN_chars (m n : String) :
    ∀ c ∈ (generateWWN m n).data, isUpperHexDigit c = true := by
  intro c hc
  have hc' : c ∈ (hexEncode (wwnBytes m n)).map upChar := hc
  obtain ⟨c0, hc0, rfl⟩ := List.mem_map.mp hc'
  exact hexEncode_chars (wwnBytes m n) (wwnBytes_lt m n) c0 hc0

theorem localDiskApply_ok (env : LdEnv) (spec : VolumeSpec) (machineID : String)
    (s : VolumeStatus) (h : localDiskApply env spec machineID = .ok s) :
    s = { name := spec.name
          type := .file
          path := ldDiskFilename machineID spec.name
          handle := generateWWN machineID spec.name
          state := .prepared
          size :=
            if (spec.localDisk.map LocalDiskSpec.size).getD 0 = 0 then defaultSize
            else (spec.localDisk.map LocalDiskSpec.size).getD 0 } := by
  unfold localDiskApply at h
  cases hld : spec.localDisk with
  | none =>
    rw [hld] at h
    exact Except.noConfusion h
  | some ld =>
    rw [hld] at h
    cases hmk : env.mkdirAll with
    | some e =>
      rw [hmk] at h
      exact Except.noConfusion h
    | none =>
      rw [hmk] at h
      simp only [] at h
      split at h
      · exact Except.noConfusion h
      · simp only [Except.ok.injEq] at h
        subst h
        simp [hld]

end CHP

/-- C7: a successful localdisk Apply always returns state Prepared and a
handle equal to generateWWN of the (machineID, volume name) pair, hence
identical across repeated calls whatever the filesystem state; the
handle is a 16-character uppercase-hex string whose leading byte has the
high bit set. -/
theorem C7_localdisk_wwn (env1 env2 : CHP.LdEnv) (spec : CHP.VolumeSpec)
    (machineID : String) (s1 s2 : CHP.VolumeStatus)
    (h1 : CHP.localDiskApply env1 spec machineID = .ok s1)
    (h2 : CHP.localDiskApply env2 spec machineID = .ok s2) :
    s1.handle = CHP.generateWWN machineID spec.name ∧
    s2.handle = s1.handle ∧
    s1.state = .prepared ∧ s2.state = .prepared ∧
    s1.handle.length = 16 ∧
    (∀ c ∈ s1.handle.data, CHP.isUpperHexDigit c = true) ∧
    (∃ b rest, CHP.wwnBytes machineID spec.name = b :: rest ∧ 128 ≤ b ∧ b < 256) := by
  have e1 := CHP.localDiskApply_ok env1 spec machineID s1 h1
  have e2 := CHP.localDiskApply_ok env2 spec machineID s2 h2
  subst e1
  subst e2
  refine ⟨rfl, rfl, rfl, rfl, CHP.generateWWN_length machineID spec.name,
    CHP.generateWWN_chars machineID spec.name,
    CHP.wwnBytes_head_high machineID spec.name⟩

namespace CHP

/-- A localdisk environment in which every call succeeds and the disk
file already exists. -/
def ldEnvOkW : LdEnv :=
  { mkdirAll := none
    statDisk := none
    imageGet := .ok ""
    rawCreate := none
    chmod := none }

/-- A localdisk environment in which the disk file is absent and is
created successfully. -/
def ldEnvCreateW : LdEnv :=
  { mkdirAll := none
    statDisk := some fsNotExist
    imageGet := .ok ""
    rawCreate := none
    chmod := none }

/-- A concrete localdisk volume spec. -/
def ldSpecW : VolumeSpec :=
  { name := "disk-1", device := "oda", localDisk := some { size := 0, image := none } }

/-- The status a successful localdisk Apply yields for `ldSpecW` on
machine `m1`. -/
def ldStatusW : VolumeStatus :=
  { name := "disk-1"
    type := .file
    path := ldDiskFilename "m1" "disk-1"
    handle := generateWWN "m1" "disk-1"
    state := .prepared
    size := defaultSize }

end CHP

/-- C7 witness: Apply on machine `m1`, volume `disk-1`, once with the
disk file present and once with it created, returns the same Prepared
status with the same 16-character handle. -/
theorem C7_localdisk_wwn_witness :
    CHP.localDiskApply CHP.ldEnvOkW CHP.ldSpecW "m1" = .ok CHP.ldStatusW ∧
    CHP.localDiskApply CHP.ldEnvCreateW CHP.ldSpecW "m1" = .ok CHP.ldStatusW ∧
    CHP.ldStatusW.state = .prepared ∧
    CHP.ldStatusW.handle = CHP.generateWWN "m1" "disk-1" ∧
    CHP.ldStatusW.handle.length = 16 := by
  have h1 : CHP.localDiskApply CHP.ldEnvOkW CHP.ldSpecW "m1" = .ok CHP.ldStatusW := rfl
  have h2 : CHP.localDiskApply CHP.ldEnvCreateW CHP.ldSpecW "m1" = .ok CHP.ldStatusW := rfl
  obtain ⟨hh, hsame, hs1, hs2, hlen, _⟩ :=
    C7_localdisk_wwn CHP.ldEnvOkW CHP.ldEnvCreateW CHP.ldSpecW "m1"
      CHP.ldStatusW CHP.ldStatusW h1 h2
  exact ⟨h1, h2, hs1, hh, hlen⟩

namespace CHP

/-- QMP commands issued by the ceph plugin against qemu-storage-daemon. -/
inductive QmpCmd where
  | queryNamedBlockNodes
  | queryBlockExports
  | blockdevAdd (nodeName : String)
  | blockExportAdd (id : String)
  | blockExportDel (id : String)
  | blockdevDel (nodeName : String)
deriving DecidableEq, Repr

/-- Sentinel for the ceph package's ErrNotFound. -/
def qmpNotFound : GoErr := .errorf "not found"

/-- Outcomes of the ceph plugin's filesystem and QMP calls: queries
return `none` when the node/export is found, `some qmpNotFound` when it
is absent, and any other `some` on failure; the add/del fields are the
command results. -/
structure QmpEnv where
  mkdirAll : Option GoErr
  createConf : Option GoErr
  nodeQuery : Option GoErr
  nodeAdd : Option GoErr
  exportQuery : Option GoErr
  exportAdd : Option GoErr
  exportDel : Option GoErr
  nodeDel : Option GoErr
deriving DecidableEq, Repr

/-- The `ceph-<handle>` node/export name. -/
def cephHandle (volumeID : String) : String := "ceph-" ++ volumeID

/-- Socket path inside the ceph volume directory. -/
def cephSocketPath (machineID volumeHandle : String) : String :=
  machineID ++ "/volumes/ceph/" ++ volumeHandle ++ "/socket"

/-- QMP.Unmount (qmp.go lines 66-92): query the block export; when
found, block-export-del it; a NotFound query result skips the delete;
then the same for the named block node with blockdev-del. -/
def qmpUnmount (env : QmpEnv) (volumeID : String) : List QmpCmd × Option GoErr :=
  let handle := cephHandle volumeID
  let exportStep : List QmpCmd × Option GoErr :=
    match env.exportQuery with
    | some e =>
      if e.goIs qmpNotFound then ([.queryBlockExports], none)
      else ([.queryBlockExports], some (.errorfW "error querying block device" e))
    | none =>
      match env.exportDel with
      | some e =>
        ([.queryBlockExports, .blockExportDel handle],
          some (.errorfW "error deleting block device export" e))
      | none => ([.queryBlockExports, .blockExportDel handle], none)
  match exportStep with
  | (tr, some e) => (tr, some e)
  | (tr, none) =>
    let nodeStep : List QmpCmd × Option GoErr :=
      match env.nodeQuery with
      | some e =>
        if e.goIs qmpNotFound then ([.queryNamedBlockNodes], none)
        else ([.queryNamedBlockNodes], some (.errorfW "error querying block device" e))
      | none =>
        match env.nodeDel with
        | some e =>
          ([.queryNamedBlockNodes, .blockdevDel handle],
            some (.errorfW "error deleting block device" e))
        | none => ([.queryNamedBlockNodes, .blockdevDel handle], none)
    (tr ++ nodeStep.1, nodeStep.2)

/-- The ceph volume fields consumed by QMP.Mount. -/
structure CephVolume where
  handle : String
  pool : String := ""
  image : String := ""
  userID : String := ""
  userKey : String := ""
deriving DecidableEq, Repr

/-- QMP.Mount (qmp.go lines 26-64): make the volume dir, write the ceph
conf, blockdev-add the rbd node if the query does not find it, then
block-export-add the vhost-user-blk export if the query does not find
it, and return the export socket path. -/
def qmpMount (env : QmpEnv) (machineID : String) (volume : CephVolume) :
    List QmpCmd × Except GoErr String :=
  match env.mkdirAll with
  | some e => ([], .error e)
  | none =>
    match env.createConf with
    | some e => ([], .error (.errorfW "error creating ceph conf" e))
    | none =>
      let handle := cephHandle volume.handle
      let socketPath := cephSocketPath machineID volume.handle
      let nodeStep : List QmpCmd × Option GoErr :=
        match env.nodeQuery with
        | some e =>
          if e.goIs qmpNotFound then
            match env.nodeAdd with
            | some e2 =>
              ([.queryNamedBlockNodes, .blockdevAdd handle],
                some (.errorfW "error adding block device" e2))
            | none => ([.queryNamedBlockNodes, .blockdevAdd handle], none)
          else ([.queryNamedBlockNodes], some (.errorfW "error querying block device" e))
        | none => ([.queryNamedBlockNodes], none)
      match nodeStep with
      | (tr, some e) => (tr, .error e)
      | (tr, none) =>
        let exportStep : List QmpCmd × Option GoErr :=
          match env.exportQuery with
          | some e =>
            if e.goIs qmpNotFound then
              match env.exportAdd with
              | some e2 =>
                ([.queryBlockExports, .blockExportAdd handle],
                  some (.errorfW "error adding block device" e2))
              | none => ([.queryBlockExports, .blockExportAdd handle], none)
            else ([.queryBlockExports], some (.errorfW "error querying block device" e))
          | none => ([.queryBlockExports], none)
        match exportStep with
        | (tr2, some e) => (tr ++ tr2, .error e)
        | (tr2, none) => (tr ++ tr2, .ok socketPath)

/-- Deletion commands of a trace. -/
def isDelCmd : QmpCmd → Bool
  | .blockExportDel _ => true
  | .blockdevDel _ => true
  | _ => false

/-- Creation commands of a trace. -/
def isAddCmd : QmpCmd → Bool
  | .blockdevAdd _ => true
  | .blockExportAdd _ => true
  | _ => false

/-- The deletion command undoing a creation command. -/
def addToDel : QmpCmd → QmpCmd
  | .blockdevAdd n => .blockdevDel n
  | .blockExportAdd i => .blockExportDel i
  | c => c

end CHP

/-- C8: ceph Unmount issues block-export-del before blockdev-del — the
exact reverse of the order Mount creates them in — and each step is
idempotent against NotFound: a query reporting the export (or node)
absent skips that delete and Unmount still succeeds. -/
theorem C8_ceph_unmount (env : CHP.QmpEnv) (volumeID : String) :
    (env.exportQuery = none → env.exportDel = none → env.nodeQuery = none →
      env.nodeDel = none →
      CHP.qmpUnmount env volumeID =
        ([.queryBlockExports, .blockExportDel (CHP.cephHandle volumeID),
          .queryNamedBlockNodes, .blockdevDel (CHP.cephHandle volumeID)], none)) ∧
    (∀ e, env.exportQuery = some e → e.goIs CHP.qmpNotFound = true →
      env.nodeQuery = none → env.nodeDel = none →
      CHP.qmpUnmount env volumeID =
        ([.queryBlockExports, .queryNamedBlockNodes,
          .blockdevDel (CHP.cephHandle volumeID)], none)) ∧
    (∀ e, env.exportQuery = none → env.exportDel = none → env.nodeQuery = some e →
      e.goIs CHP.qmpNotFound = true →
      CHP.qmpUnmount env volumeID =
        ([.queryBlockExports, .blockExportDel (CHP.cephHandle volumeID),
          .queryNamedBlockNodes], none)) ∧
    (∀ e1 e2, env.exportQuery = some e1 → e1.goIs CHP.qmpNotFound = true →
      env.nodeQuery = some e2 → e2.goIs CHP.qmpNotFound = true →
      CHP.qmpUnmount env volumeID =
        ([.queryBlockExports, .queryNamedBlockNodes], none)) ∧
    (∀ envM machineID vol e1 e2, envM.mkdirAll = none → envM.createConf = none →
      envM.nodeQuery = some e1 → e1.goIs CHP.qmpNotFound = true → envM.nodeAdd = none →
      envM.exportQuery = some e2 → e2.goIs CHP.qmpNotFound = true → envM.exportAdd = none →
      vol.handle = volumeID →
      env.exportQuery = none → env.exportDel = none → env.nodeQuery = none →
      env.nodeDel = none →
      ((CHP.qmpUnmount env volumeID).1.filter CHP.isDelCmd) =
        ((((CHP.qmpMount envM machineID vol).1.filter CHP.isAddCmd).map
          CHP.addToDel).reverse)) := by
  refine ⟨?_, ?_, ?_, ?_, ?_⟩
  · intro h1 h2 h3 h4
    simp [CHP.qmpUnmount, h1, h2, h3, h4]
  · intro e h1 hnf h3 h4
    simp [CHP.qmpUnmount, h1, hnf, h3, h4]
  · intro e h1 h2 h3 hnf
    simp [CHP.qmpUnmount, h1, h2, h3, hnf]
  · intro e1 e2 h1 hnf1 h2 hnf2
    simp [CHP.qmpUnmount, h1, hnf1, h2, hnf2]
  · intro envM machineID vol e1 e2 hm1 hm2 hm3 hnf1 hm4 hm5 hnf2 hm6 hvol h1 h2 h3 h4
    subst hvol
    simp [CHP.qmpUnmount, CHP.qmpMount, h1, h2, h3, h4, hm1, hm2, hm3, hnf1, hm4, hm5,
      hnf2, hm6, CHP.isDelCmd, CHP.isAddCmd, CHP.addToDel]

/-- C8 witness: concrete environments exercising the both-present
deletion order, both skip branches, and the mount-order reversal. -/
theorem C8_ceph_unmount_witness :
    CHP.qmpUnmount ⟨none, none, none, none, none, none, none, none⟩ "v1" =
      ([.queryBlockExports, .blockExportDel (CHP.cephHandle "v1"),
        .queryNamedBlockNodes, .blockdevDel (CHP.cephHandle "v1")], none) ∧
    CHP.qmpUnmount
        ⟨none, none, some CHP.qmpNotFound, none, some CHP.qmpNotFound, none, none, none⟩
        "v1" =
      ([.queryBlockExports, .queryNamedBlockNodes], none) ∧
    ((CHP.qmpUnmount ⟨none, none, none, none, none, none, none, none⟩ "v1").1.filter
        CHP.isDelCmd) =
      ((((CHP.qmpMount
            ⟨none, none, some CHP.qmpNotFound, none, some CHP.qmpNotFound, none, none,
              none⟩ "m1" ⟨"v1", "", "", "", ""⟩).1.filter CHP.isAddCmd).map
        CHP.addToDel).reverse) := by
  refine ⟨?_, ?_, ?_⟩
  · exact (C8_ceph_unmount ⟨none, none, none, none, none, none, none, none⟩ "v1").1
      rfl rfl rfl rfl
  · exact (C8_ceph_unmount
      ⟨none, none, some CHP.qmpNotFound, none, some CHP.qmpNotFound, none, none, none⟩
      "v1").2.2.2.1 CHP.qmpNotFound CHP.qmpNotFound rfl (by decide) rfl (by decide)
  · exact (C8_ceph_unmount ⟨none, none, none, none, none, none, none, none⟩ "v1").2.2.2.2
      ⟨none, none, some CHP.qmpNotFound, none, some CHP.qmpNotFound, none, none, none⟩
      "m1" ⟨"v1", "", "", "", ""⟩ CHP.qmpNotFound CHP.qmpNotFound rfl rfl rfl (by decide)
      rfl rfl (by decide) rfl rfl rfl rfl rfl rfl

namespace CHP

/-- Value of Go `float64(n)` for an `int64` input: exact when
`|n| ≤ 9007199254740992 = 2^53`; otherwise IEEE-754 round-to-nearest-even
at 53 significant bits. -/
def bitsAux : Nat → Nat → Nat
  | 0, _ => 0
  | fuel + 1, n => if n = 0 then 0 else bitsAux fuel (n / 2) + 1

/-- Bit length of a Nat below `2^64` (64 division steps suffice). -/
def bitLen (n : Nat) : Nat := bitsAux 64 n

def float64OfInt (n : Int) : Int :=
  let m := n.natAbs
  if m ≤ 9007199254740992 then n
  else
    let b := bitLen m - 1
    let k := b - 52
    let q := m / Nat.pow 2 k
    let r := m % Nat.pow 2 k
    let half := Nat.pow 2 (k - 1)
    let q' :=
      if r < half then q
      else if half < r then q + 1
      else if q % 2 = 0 then q else q + 1
    if n < 0 then -(Int.ofNat (q' * Nat.pow 2 k)) else Int.ofNat (q' * Nat.pow 2 k)

/-- machine_create.go line 70: `int64(math.Max(float64(class.Cpu), 1))`:
the float64 of the class cpu, clamped below at the float 1, truncated
back to int64 (the value is integral, so truncation is exact). -/
def machineCpuFromClass (classCpu : Int) : Int :=
  let f := float64OfInt classCpu
  if f < 1 then 1 else f

/-- api.MachineClass registry entry. -/
structure MachineClass where
  name : String
  cpu : Int
  memoryBytes : Int
deriving DecidableEq, Repr

/-- createMachineFromIRIMachine (machine_create.go lines 64-90), resource
part: the created machine spec carries cpu from the class via the
float64 max-clamp and memory bytes from the class unchanged. -/
def createMachineSpecFromClass (cls : MachineClass) (power : PowerState)
    (vols : List VolumeSpec) (nics : List NicSpec) (ign : Option (List Nat)) :
    MachineSpec :=
  { power := power
    cpu := machineCpuFromClass cls.cpu
    memoryBytes := cls.memoryBytes
    volumes := vols
    ignition := ign
    networkInterfaces := nics }

end CHP

/-- C10 counterexample: a registered class with cpu `2^53 + 1` yields a
machine whose cpu is `2^53`, not the class cpu clamped below at 1
(float64 cannot represent `2^53 + 1`, and the conversion rounds to even). -/
theorem C10_counterexample :
    (CHP.createMachineSpecFromClass ⟨"big", 9007199254740993, 1024⟩
        .powerOn [] [] none).cpu = 9007199254740992 ∧
    (CHP.createMachineSpecFromClass ⟨"big", 9007199254740993, 1024⟩
        .powerOn [] [] none).cpu ≠ max (9007199254740993 : Int) 1 := by
  have h1 : (CHP.createMachineSpecFromClass ⟨"big", 9007199254740993, 1024⟩
      .powerOn [] [] none).cpu = 9007199254740992 := rfl
  refine ⟨h1, ?_⟩
  rw [h1, max_eq_left (by norm_num)]
  norm_num

/-- C10 (amended): for every machine class whose cpu magnitude is at most
`2^53` (where float64 is exact), the created machine's cpu equals the
class cpu clamped below at 1 — in particular cpu 0 becomes 1 — and
memory bytes are taken from the class unchanged. -/
theorem C10_cpu_clamped (cls : CHP.MachineClass) (power : CHP.PowerState)
    (vols : List CHP.VolumeSpec) (nics : List CHP.NicSpec) (ign : Option (List Nat))
    (h : cls.cpu.natAbs ≤ 9007199254740992) :
    (CHP.createMachineSpecFromClass cls power vols nics ign).cpu = max cls.cpu 1 ∧
    (CHP.createMachineSpecFromClass cls power vols nics ign).memoryBytes =
      cls.memoryBytes := by
  constructor
  · show CHP.machineCpuFromClass cls.cpu = max cls.cpu 1
    unfold CHP.machineCpuFromClass CHP.float64OfInt
    rw [if_pos h]
    rcases le_or_lt 1 cls.cpu with hc | hc
    · rw [if_neg (by omega), max_eq_left hc]
    · rw [if_pos hc, max_eq_right (by omega)]
  · rfl

/-- C10 witness: a class with cpu 0 yields a machine with cpu 1 and the
class's memory bytes. -/
theorem C10_cpu_clamped_witness :
    (CHP.createMachineSpecFromClass ⟨"sample", 0, 1024⟩ .powerOn [] [] none).cpu = 1 ∧
    (CHP.createMachineSpecFromClass ⟨"sample", 0, 1024⟩ .powerOn [] [] none).memoryBytes =
      1024 := by
  have h := C10_cpu_clamped ⟨"sample", 0, 1024⟩ .powerOn [] [] none (by decide)
  exact ⟨by rw [h.1]; decide, h.2⟩

namespace CHP

/-- MachineFinalizer (machine_controller.go line 36). -/
def MachineFinalizer : String := "machine"

/-- String form of getNicID for the reconciler. -/
def getNicIDStr (nicName : String) : String := "NIC//" ++ nicName

/-- String form of getNicName for the reconciler. -/
def getNicNameStr (id : String) : Option String :=
  (getNicName id.data).map (fun l => String.mk l)

/-- External calls issued by the reconciler, in order. -/
inductive Action where
  | shutdownVM (instanceID : String)
  | deleteVM (instanceID : String)
  | createVM (instanceID : String)
  | bootVM (instanceID : String)
  | addDiskCall (instanceID handle : String)
  | removeDeviceCall (instanceID deviceID : String)
  | addNicCall (instanceID nicName : String)
  | volPluginApply (name : String)
  | volPluginDelete (name : String)
  | nicPluginApply (name : String)
  | nicPluginDelete (name : String)
  | getFreeSocket
  | freeSocket (socket : String)
  | removeMachineDir (id : String)
  | storeUpdate (m : Machine)
  | queueAdd (id : String)
deriving DecidableEq, Repr

/-- Result of one HTTP round trip on the control socket: a transport
error from the client, or a response with status and body. -/
inductive CallRes where
  | transport (msg : String)
  | http (status : Nat) (body : String)
deriving DecidableEq, Repr

/-- Fixed outcomes of the Manager's REST calls, per control-socket path:
`instances` is the key set of the manager's instance map; the `…Resp`
fields give each endpoint's round-trip result; `vmInfoJson` is the
parsed JSON200 payload of GET /vm.info. -/
structure VmmEnv where
  instances : List String
  pingResp : String → CallRes
  shutdownResp : String → CallRes
  deleteResp : String → CallRes
  bootResp : String → CallRes
  createResp : String → CallRes
  addDiskResp : String → CallRes
  addDeviceResp : String → CallRes
  removeDeviceResp : String → CallRes
  vmInfo : String → CallRes
  vmInfoJson : String → Option VmInfo

/-- Manager.Ping (part_010 lines 102-132): instance lookup, then the
round trip; the response status is only logged, never validated. -/
def mgrPing (env : VmmEnv) (instanceID : String) : Option GoErr :=
  if env.instances.contains instanceID then
    match env.pingResp instanceID with
    | .transport m => some (.errorfW "failed to ping vmm" (.transport m))
    | .http _ _ => none
  else some .notFound

/-- Manager.PowerOff (part_010 lines 415-438). -/
def mgrPowerOff (env : VmmEnv) (instanceID : String) : Option GoErr :=
  if env.instances.contains instanceID then
    match env.shutdownResp instanceID with
    | .transport m => some (.errorfW "failed to shutdown vm" (.transport m))
    | .http st _ => validateStatus st
  else some .notFound

/-- Manager.PowerOn (part_010 lines 390-413). -/
def mgrPowerOn (env : VmmEnv) (instanceID : String) : Option GoErr :=
  if env.instances.contains instanceID then
    match env.bootResp instanceID with
    | .transport m => some (.errorfW "failed to boot vm" (.transport m))
    | .http st _ => validateStatus st
  else some .notFound

/-- Manager.Delete (part_010 lines 440-463). -/
def mgrDelete (env : VmmEnv) (instanceID : String) : Option GoErr :=
  if env.instances.contains instanceID then
    match env.deleteResp instanceID with
    | .transport m => some (.errorfW "failed to delete vm" (.transport m))
    | .http st _ => validateStatus st
  else some .notFound

/-- Manager.RemoveDevice (part_010 lines 285-310). -/
def mgrRemoveDevice (env : VmmEnv) (instanceID : String) : Option GoErr :=
  if env.instances.contains instanceID then
    match env.removeDeviceResp instanceID with
    | .transport m => some (.errorfW "failed to remove device" (.transport m))
    | .http st _ => validateStatus st
  else some .notFound

/-- Manager.AddDisk (part_010 lines 348-388): the volume must be in
state Prepared before the instance lookup and the round trip. -/
def mgrAddDisk (env : VmmEnv) (instanceID : String) (volume : VolumeStatus) :
    Option GoErr :=
  if volume.state ≠ .prepared then some (.errorf "volume is not prepared")
  else if env.instances.contains instanceID then
    match env.addDiskResp instanceID with
    | .transport m => some (.errorfW "failed to add device" (.transport m))
    | .http st _ => validateStatus st
  else some .notFound

/-- Manager.AddNIC (part_010 lines 312-342): the nic must be in state
Prepared (the transport-error message in the source says
"failed to remove device"). -/
def mgrAddNIC (env : VmmEnv) (instanceID : String) (nic : NicStatus) : Option GoErr :=
  if nic.state ≠ .prepared then some (.errorf "nic is not attached")
  else if env.instances.contains instanceID then
    match env.addDeviceResp instanceID with
    | .transport m => some (.errorfW "failed to remove device" (.transport m))
    | .http st _ => validateStatus st
  else some .notFound

/-- Manager.GetVM (part_010 lines 153-179). -/
def mgrGetVM (env : VmmEnv) (instanceID : String) : Except GoErr (Option VmInfo) :=
  if env.instances.contains instanceID then
    match env.vmInfo instanceID with
    | .transport m => .error (.errorfW "failed to get vm" (.transport m))
    | .http st body =>
      match validateStatus st with
      | some e => if body = vmNotCreatedBody then .error .vmNotCreated else .error e
      | none => .ok (env.vmInfoJson instanceID)
  else .error .notFound

/-- Manager.CreateVM (part_010 lines 181-283): instance lookup via the
machine's api socket; every nic status must be Prepared; the config
build is not modelled beyond that guard. -/
def mgrCreateVM (env : VmmEnv) (machine : Machine) : Option GoErr :=
  let instanceID := machine.spec.apiSocketPath.getD ""
  if env.instances.contains instanceID then
    if machine.status.networkInterfaceStatus.all (fun nic => nic.state = .prepared) then
      match env.createResp instanceID with
      | .transport m => some (.errorfW "failed to get vm" (.transport m))
      | .http st _ => validateStatus st
    else some (.errorf "nic is not attached")
  else some .notFound

/-- Fixed outcomes of the reconciler's other collaborators: the machine
store read and a uniform update outcome, MakeMachineDirs, the image
cache, the raw-file helper, the free-socket pool, the volume and nic
plugins, and os.RemoveAll of the machine dir. -/
structure REnv where
  vmm : VmmEnv
  free : List String
  storeGet : Except GoErr Machine
  updateErr : Option GoErr
  makeDirs : Option GoErr
  imageGet : Except GoErr Unit
  rootfsStat : Except GoErr Bool
  rawCreate : Option GoErr
  findVolPlugin : VolumeSpec → Option GoErr
  volApply : String → Except GoErr VolumeStatus
  volDelete : String → Option GoErr
  nicApply : String → Except GoErr NicStatus
  nicDelete : String → Option GoErr
  removeDir : Option GoErr

/-- controller getMachineState (machine_controller.go lines 698-713). -/
def getMachineState (env : REnv) (machine : Machine) : Except GoErr VmState :=
  let apiSocket := machine.spec.apiSocketPath.getD ""
  match mgrGetVM env.vmm apiSocket with
  | .error e =>
    if e.goIs .vmNotCreated || e.goIs .notFound then .ok .shutdown
    else .error e
  | .ok none => .error .nilDeref
  | .ok (some vm) => if vm.state = .running then .ok .running else .ok .shutdown

/-- controller getVolumeStatus (lines 715-725); the zero VolumeStatus of
Go has an empty (unspecified) type. -/
def getVolumeStatus (volumes : List VolumeStatus) (name : String) : VolumeStatus :=
  match volumes.find? (fun vol => vol.name = name) with
  | some vol => vol
  | none =>
    { name := name, type := .unspecified, path := "", handle := "", state := .pending,
      size := 0 }

/-- controller getNICStatus (lines 727-737). -/
def getNICStatus (nics : List NicStatus) (name : String) : NicStatus :=
  match nics.find? (fun nic => nic.name = name) with
  | some nic => nic
  | none => { name := name, handle := "", path := none, state := .pending }

/-- Volume-deletion loop of deleteMachine (lines 756-767). -/
def volsDeleteLoop (env : REnv) : List VolumeSpec → List Action × Option GoErr
  | [] => ([], none)
  | vol :: rest =>
    match env.findVolPlugin vol with
    | some e => ([], some (.errorfW "failed to find plugin" e))
    | none =>
      match env.volDelete vol.name with
      | some e => ([.volPluginDelete vol.name], some (.errorfW "failed to delete volume" e))
      | none =>
        let res := volsDeleteLoop env rest
        (.volPluginDelete vol.name :: res.1, res.2)

/-- NIC-deletion loop of deleteMachine (lines 769-775). -/
def nicsDeleteLoop (env : REnv) : List NicSpec → List Action × Option GoErr
  | [] => ([], none)
  | nic :: rest =>
    match env.nicDelete nic.name with
    | some e => ([.nicPluginDelete nic.name], some (.errorfW "failed to delete nic" e))
    | none =>
      let res := nicsDeleteLoop env rest
      (.nicPluginDelete nic.name :: res.1, res.2)

/-- controller deleteMachine (machine_controller.go lines 739-794).
The PowerOff and DeleteVM guards are modelled exactly as written:
`if err := call(); !errors.Is(err, vmm.ErrNotFound) { return wrap(err) }`
— note that a `nil` error also fails this test. -/
def deleteMachine (env : REnv) (machine : Machine) : List Action × Except GoErr Unit :=
  match getMachineState env machine with
  | .error e => ([], .error e)
  | .ok st =>
    let step1 : List Action × Option GoErr :=
      if st = .running then
        let err := mgrPowerOff env.vmm machine.metadata.id
        if errsIs err .notFound then ([.shutdownVM machine.metadata.id], none)
        else ([.shutdownVM machine.metadata.id], some (wrapf "failed to power off machine" err))
      else ([], none)
    match step1 with
    | (tr, some e) => (tr, .error e)
    | (tr1, none) =>
      let errD := mgrDelete env.vmm machine.metadata.id
      if errsIs errD .notFound then
        let tr2 := tr1 ++ [.deleteVM machine.metadata.id]
        match volsDeleteLoop env machine.spec.volumes with
        | (trV, some e) => (tr2 ++ trV, .error e)
        | (trV, none) =>
          match nicsDeleteLoop env machine.spec.networkInterfaces with
          | (trN, some e) => (tr2 ++ trV ++ trN, .error e)
          | (trN, none) =>
            let sock := machine.spec.apiSocketPath.getD ""
            let trS := if sock ≠ "" then [Action.freeSocket sock] else []
            match env.removeDir with
            | some e =>
              (tr2 ++ trV ++ trN ++ trS,
                .error (.errorfW "failed to remove machine directory" e))
            | none =>
              let m' := { machine with
                metadata := { machine.metadata with
                  finalizers := machine.metadata.finalizers.erase MachineFinalizer } }
              let trU := tr2 ++ trV ++ trN ++ trS ++
                [Action.removeMachineDir machine.metadata.id, Action.storeUpdate m']
              match env.updateErr with
              | some e =>
                if e.goIs .storeNotFound then (trU, .ok ())
                else (trU, .error (.errorfW "failed to update machine metadata" e))
              | none => (trU, .ok ())
      else (tr1 ++ [.deleteVM machine.metadata.id], .error (wrapf "failed to kill VMM" errD))

/-- reconcileVolumes loop body (lines 800-831). -/
def reconcileVolumesLoop (env : REnv) (statuses : List VolumeStatus) :
    List VolumeSpec → List Action × Except GoErr (List VolumeSpec × List VolumeStatus)
  | [] => ([], .ok ([], []))
  | vol :: rest =>
    match env.findVolPlugin vol with
    | some e => ([], .error (.errorfW "failed to find plugin" e))
    | none =>
      let status := getVolumeStatus statuses vol.name
      if vol.deletedAt.isSome ∧ status.state ≠ .attached then
        match env.volDelete vol.name with
        | some e =>
          ([.volPluginDelete vol.name], .error (.errorfW "failed to delete volume" e))
        | none =>
          let res := reconcileVolumesLoop env statuses rest
          (.volPluginDelete vol.name :: res.1, res.2)
      else
        match env.volApply vol.name with
        | .error e => ([.volPluginApply vol.name], .error (.errorfW "failed to apply volume" e))
        | .ok appliedRaw =>
          let applied :=
            if status.state = .attached then { appliedRaw with state := VolState.attached }
            else appliedRaw
          let res := reconcileVolumesLoop env statuses rest
          (.volPluginApply vol.name :: res.1,
            res.2.map (fun p => (vol :: p.1, applied :: p.2)))

/-- controller reconcileVolumes (machine_controller.go lines 796-841). -/
def reconcileVolumes (env : REnv) (machine : Machine) :
    List Action × Except GoErr Machine :=
  match reconcileVolumesLoop env machine.status.volumeStatus machine.spec.volumes with
  | (tr, .error e) => (tr, .error e)
  | (tr, .ok p) =>
    let m' := { machine with
      spec := { machine.spec with volumes := p.1 }
      status := { machine.status with volumeStatus := p.2 } }
    match env.updateErr with
    | some e =>
      (tr ++ [.storeUpdate m'], .error (.errorfW "failed to update machine status" e))
    | none => (tr ++ [.storeUpdate m'], .ok m')

/-- reconcileNics loop body (lines 848-875). -/
def reconcileNicsLoop (env : REnv) (statuses : List NicStatus) :
    List NicSpec → List Action × Except GoErr (List NicSpec × List NicStatus)
  | [] => ([], .ok ([], []))
  | nic :: rest =>
    let status := getNICStatus statuses nic.name
    if nic.deletedAt.isSome ∧ status.state ≠ .attached then
      match env.nicDelete nic.name with
      | some e => ([.nicPluginDelete nic.name], .error (.errorfW "failed to delete NIC" e))
      | none =>
        let res := reconcileNicsLoop env statuses rest
        (.nicPluginDelete nic.name :: res.1, res.2)
    else
      match env.nicApply nic.name with
      | .error e => ([.nicPluginApply nic.name], .error (.errorfW "failed to apply NIC" e))
      | .ok appliedRaw =>
        let applied :=
          if status.state = .attached then { appliedRaw with state := NicState.attached }
          else appliedRaw
        let res := reconcileNicsLoop env statuses rest
        (.nicPluginApply nic.name :: res.1,
          res.2.map (fun p => (nic :: p.1, applied :: p.2)))

/-- controller reconcileNics (machine_controller.go lines 843-885). -/
def reconcileNics (env : REnv) (machine : Machine) :
    List Action × Except GoErr Machine :=
  match reconcileNicsLoop env machine.status.networkInterfaceStatus
      machine.spec.networkInterfaces with
  | (tr, .error e) => (tr, .error e)
  | (tr, .ok p) =>
    let m' := { machine with
      spec := { machine.spec with networkInterfaces := p.1 }
      status := { machine.status with networkInterfaceStatus := p.2 } }
    match env.updateErr with
    | some e =>
      (tr ++ [.storeUpdate m'], .error (.errorfW "failed to update machine status" e))
    | none => (tr ++ [.storeUpdate m'], .ok m')

/-- Live disk ids of the VM config (attachDetachDisks lines 897-903). -/
def diskIds (cfg : VmConfig) : List String :=
  (cfg.disks.getD []).filterMap (fun d => d.id)

/-- Live NIC names of the VM config (attachDetachNICs lines 958-964). -/
def liveNicNames (cfg : VmConfig) : List String :=
  (cfg.devices.getD []).filterMap (fun d => getNicNameStr (d.id.getD ""))

/-- attachDetachDisks loop body (lines 906-938). -/
def attachDetachDisksLoop (env : REnv) (apiSocket : String)
    (statuses : List VolumeStatus) (current : List String) :
    List VolumeSpec → List Action × Except GoErr (List VolumeStatus)
  | [] => ([], .ok [])
  | vol :: rest =>
    let status := getVolumeStatus statuses vol.name
    match vol.deletedAt with
    | none =>
      if current.contains status.handle then
        let res := attachDetachDisksLoop env apiSocket statuses current rest
        (res.1, res.2.map (fun l => { status with state := VolState.attached } :: l))
      else if status.state ≠ .prepared then
        attachDetachDisksLoop env apiSocket statuses current rest
      else
        match mgrAddDisk env.vmm apiSocket status with
        | some e =>
          ([.addDiskCall apiSocket status.handle],
            .error (.errorfW "failed to add disk" e))
        | none =>
          let res := attachDetachDisksLoop env apiSocket statuses current rest
          (.addDiskCall apiSocket status.handle :: res.1,
            res.2.map (fun l => { status with state := VolState.attached } :: l))
    | some _ =>
      if current.contains status.handle then
        match mgrRemoveDevice env.vmm apiSocket with
        | some e =>
          ([.removeDeviceCall apiSocket status.handle],
            .error (.errorfW "failed to remove disk" e))
        | none =>
          let res := attachDetachDisksLoop env apiSocket statuses current rest
          (.removeDeviceCall apiSocket status.handle :: res.1,
            res.2.map (fun l => status :: l))
      else
        let res := attachDetachDisksLoop env apiSocket statuses current rest
        (res.1, res.2.map (fun l => { status with state := VolState.prepared } :: l))

/-- controller attachDetachDisks (machine_controller.go lines 888-946). -/
def attachDetachDisks (env : REnv) (machine : Machine) (cfg : VmConfig) :
    List Action × Except GoErr Machine :=
  let apiSocket := machine.spec.apiSocketPath.getD ""
  match attachDetachDisksLoop env apiSocket machine.status.volumeStatus (diskIds cfg)
      machine.spec.volumes with
  | (tr, .error e) => (tr, .error e)
  | (tr, .ok sts) =>
    let m' := { machine with status := { machine.status with volumeStatus := sts } }
    match env.updateErr with
    | some e =>
      (tr ++ [.storeUpdate m'], .error (.errorfW "failed to update machine status" e))
    | none => (tr ++ [.storeUpdate m'], .ok m')

/-- attachDetachNICs loop body (lines 967-1001); a successful detach
additionally re-enqueues the machine id. -/
def attachDetachNICsLoop (env : REnv) (apiSocket machineID : String)
    (statuses : List NicStatus) (current : List String) :
    List NicSpec → List Action × Except GoErr (List NicStatus)
  | [] => ([], .ok [])
  | nic :: rest =>
    let status := getNICStatus statuses nic.name
    match nic.deletedAt with
    | none =>
      if current.contains status.name then
        let res := attachDetachNICsLoop env apiSocket machineID statuses current rest
        (res.1, res.2.map (fun l => { status with state := NicState.attached } :: l))
      else if status.state ≠ .prepared then
        attachDetachNICsLoop env apiSocket machineID statuses current rest
      else
        match mgrAddNIC env.vmm apiSocket status with
        | some e =>
          ([.addNicCall apiSocket status.name], .error (.errorfW "failed to add disk" e))
        | none =>
          let res := attachDetachNICsLoop env apiSocket machineID statuses current rest
          (.addNicCall apiSocket status.name :: res.1,
            res.2.map (fun l => { status with state := NicState.attached } :: l))
    | some _ =>
      if current.contains status.name then
        match mgrRemoveDevice env.vmm apiSocket with
        | some e =>
          ([.removeDeviceCall apiSocket (getNicIDStr nic.name)],
            .error (.errorfW "failed to remove NIC" e))
        | none =>
          let res := attachDetachNICsLoop env apiSocket machineID statuses current rest
          (.removeDeviceCall apiSocket (getNicIDStr nic.name) ::
              Action.queueAdd machineID :: res.1,
            res.2.map (fun l => status :: l))
      else
        let res := attachDetachNICsLoop env apiSocket machineID statuses current rest
        (res.1, res.2.map (fun l => { status with state := NicState.prepared } :: l))

/-- controller attachDetachNICs (machine_controller.go lines 948-1009). -/
def attachDetachNICs (env : REnv) (machine : Machine) (cfg : VmConfig) :
    List Action × Except GoErr Machine :=
  let apiSocket := machine.spec.apiSocketPath.getD ""
  match attachDetachNICsLoop env apiSocket machine.metadata.id
      machine.status.networkInterfaceStatus (liveNicNames cfg)
      machine.spec.networkInterfaces with
  | (tr, .error e) => (tr, .error e)
  | (tr, .ok sts) =>
    let m' := { machine with
      status := { machine.status with networkInterfaceStatus := sts } }
    match env.updateErr with
    | some e =>
      (tr ++ [.storeUpdate m'], .error (.errorfW "failed to update machine status" e))
    | none => (tr ++ [.storeUpdate m'], .ok m')

/-- controller reconcileImage (machine_controller.go lines 1141-1178):
returns (requeue, error). -/
def reconcileImage (env : REnv) (machine : Machine) : Bool × Option GoErr :=
  match machine.spec.image with
  | none => (false, none)
  | some _ =>
    match env.imageGet with
    | .error e =>
      if e.goIs .pulling then (true, none)
      else (false, some (.errorfW "failed to get image from cache" e))
    | .ok _ =>
      match env.rootfsStat with
      | .error e => (false, some e)
      | .ok true => (false, none)
      | .ok false =>
        match env.rawCreate with
        | some e => (false, some (.errorfW "error creating root fs disk" e))
        | none => (false, none)

/-- Tail of reconcileMachine from the platform-UUID assertion (line 1098)
to the final status update (line 1137). -/
def reconcileTail (env : REnv) (machine : Machine) (vm : VmInfo) :
    List Action × Except GoErr Unit :=
  let apiSocket := machine.spec.apiSocketPath.getD ""
  if ((vm.config.platform.getD { uuid := none }).uuid.getD "") ≠ machine.metadata.id then
    ([], .error (.errorf "machine and vm IDs do not match"))
  else
    let powerStep : List Action × Option GoErr :=
      match machine.spec.power with
      | .powerOn =>
        if vm.state ≠ .running then
          match mgrPowerOn env.vmm apiSocket with
          | some e => ([.bootVM apiSocket], some (.errorfW "failed to power on VM" e))
          | none => ([.bootVM apiSocket], none)
        else ([], none)
      | .powerOff =>
        if vm.state = .running then
          match mgrPowerOff env.vmm apiSocket with
          | some e => ([.shutdownVM apiSocket], some (.errorfW "failed to power off VM" e))
          | none => ([.shutdownVM apiSocket], none)
        else ([], none)
    match powerStep with
    | (tr, some e) => (tr, .error e)
    | (trP, none) =>
      match attachDetachDisks env machine vm.config with
      | (tr, .error e) => (trP ++ tr, .error (.errorfW "failed to attach detach disks" e))
      | (trD, .ok m1) =>
        match attachDetachNICs env m1 vm.config with
        | (tr, .error e) =>
          (trP ++ trD ++ tr, .error (.errorfW "failed to attach detach disks" e))
        | (trN, .ok m2) =>
          let m3 := { m2 with status := { m2.status with
            state := match m2.spec.power with
              | .powerOn => MachineState.running
              | .powerOff => MachineState.terminated } }
          match env.updateErr with
          | some e =>
            (trP ++ trD ++ trN ++ [.storeUpdate m3],
              .error (.errorfW "failed to update machine status" e))
          | none => (trP ++ trD ++ trN ++ [.storeUpdate m3], .ok ())

/-- reconcileMachine from the ping (line 1068) to the end, after the api
socket is known to be set. -/
def reconcileAfterSocket (env : REnv) (machine : Machine) :
    List Action × Except GoErr Unit :=
  let apiSocket := machine.spec.apiSocketPath.getD ""
  match mgrPing env.vmm apiSocket with
  | some e => ([], .error (.errorfW "failed to ping vmm" e))
  | none =>
    match reconcileVolumes env machine with
    | (tr, .error e) => (tr, .error (.errorfW "failed to reconcile volumes" e))
    | (tr1, .ok m1) =>
      match reconcileNics env m1 with
      | (tr, .error e) => (tr1 ++ tr, .error (.errorfW "failed to reconcile nics" e))
      | (tr2, .ok m2) =>
        match mgrGetVM env.vmm apiSocket with
        | .error e =>
          if e.goIs .vmNotCreated then
            match mgrCreateVM env.vmm m2 with
            | some e2 =>
              (tr1 ++ tr2 ++ [.createVM apiSocket],
                .error (.errorfW "failed to create VM" e2))
            | none =>
              (tr1 ++ tr2 ++ [.createVM apiSocket, .queueAdd m2.metadata.id], .ok ())
          else (tr1 ++ tr2, .error (.errorfW "failed to get vm" e))
        | .ok none => (tr1 ++ tr2, .error .nilDeref)
        | .ok (some vm) =>
          let res := reconcileTail env m2 vm
          (tr1 ++ tr2 ++ res.1, res.2)

/-- controller reconcileMachine (machine_controller.go lines 1012-1139). -/
def reconcileMachine (env : REnv) (id : String) : List Action × Except GoErr Unit :=
  match env.storeGet with
  | .error e =>
    if e.goIs .storeNotFound then ([], .ok ())
    else ([], .error (.errorfW "failed to fetch machine from store" e))
  | .ok machine =>
    if machine.metadata.deletedAt.isSome then
      match deleteMachine env machine with
      | (tr, .error e) => (tr, .error (.errorfW "failed to delete machine" e))
      | (tr, .ok _) => (tr, .ok ())
    else if ¬ machine.metadata.finalizers.contains MachineFinalizer then
      let m' := { machine with metadata := { machine.metadata with
        finalizers := machine.metadata.finalizers ++ [MachineFinalizer] } }
      match env.updateErr with
      | some e => ([.storeUpdate m'], .error (.errorfW "failed to set finalizers" e))
      | none => ([.storeUpdate m'], .ok ())
    else
      match env.makeDirs with
      | some e => ([], .error (.errorfW "error making machine directories" e))
      | none =>
        match reconcileImage env machine with
        | (_, some e) => ([], .error e)
        | (true, none) => ([], .ok ())
        | (false, none) =>
          match machine.spec.apiSocketPath with
          | some _ => reconcileAfterSocket env machine
          | none =>
            match env.free with
            | [] => ([.getFreeSocket], .ok ())
            | sock :: _ =>
              let m1 := { machine with
                spec := { machine.spec with apiSocketPath := some sock } }
              match env.updateErr with
              | some e =>
                ([.getFreeSocket, .storeUpdate m1],
                  .error (.errorfW "failed to update machine status" e))
              | none =>
                let res := reconcileAfterSocket env m1
                (Action.getFreeSocket :: Action.storeUpdate m1 :: res.1, res.2)

/-- The queue bookkeeping of processNextWorkItem (lines 665-683): an
error from reconcileMachine re-enqueues the id rate-limited, success
forgets it. -/
inductive QueueOutcome where
  | addRateLimited (id : String)
  | forget (id : String)
deriving DecidableEq, Repr

/-- controller processNextWorkItem (machine_controller.go lines 665-683). -/
def processNextWorkItem (env : REnv) (id : String) : QueueOutcome × List Action :=
  match reconcileMachine env id with
  | (tr, .error _) => (.addRateLimited id, tr)
  | (tr, .ok _) => (.forget id, tr)

end CHP

namespace CHP

/-- A VmInfo whose platform uuid is `m1`, in Running state, with no
disks or devices. -/
def vmRunningM1 : VmInfo :=
  { config := { disks := some [], devices := some [], platform := some { uuid := some "m1" } }
    state := .running }

/-- A VmInfo like `vmRunningM1` but in Shutdown state. -/
def vmShutdownM1 : VmInfo :=
  { vmRunningM1 with state := .shutdown }

/-- Manager environment where the instance map holds both the control
socket `s1` and (for the deleteMachine fixtures, which pass the machine
id as the instance key) `m1`; every REST call returns 200, and
GET /vm.info parses to a Running VM with uuid `m1`. -/
def vmmEnvOk : VmmEnv :=
  { instances := ["s1", "m1"]
    pingResp := fun _ => .http 200 ""
    shutdownResp := fun _ => .http 200 ""
    deleteResp := fun _ => .http 200 ""
    bootResp := fun _ => .http 200 ""
    createResp := fun _ => .http 200 ""
    addDiskResp := fun _ => .http 200 ""
    addDeviceResp := fun _ => .http 200 ""
    removeDeviceResp := fun _ => .http 200 ""
    vmInfo := fun _ => .http 200 ""
    vmInfoJson := fun _ => some vmRunningM1 }

/-- Reconciler environment where every collaborator call succeeds. -/
def rEnvOk : REnv :=
  { vmm := vmmEnvOk
    free := ["s2"]
    storeGet := .error .storeNotFound
    updateErr := none
    makeDirs := none
    imageGet := .ok ()
    rootfsStat := .ok true
    rawCreate := none
    findVolPlugin := fun _ => none
    volApply := fun n =>
      .ok { name := n, type := .file, path := "", handle := "h-" ++ n, state := .prepared,
            size := 0 }
    volDelete := fun _ => none
    nicApply := fun n => .ok { name := n, handle := "", path := none, state := .prepared }
    nicDelete := fun _ => none
    removeDir := none }

/-- A machine `m1` marked for deletion, holding socket `s1`, one volume
`v1` and no NICs. -/
def mDelC1 : Machine :=
  { metadata := { id := "m1", finalizers := ["machine"], deletedAt := some 1 }
    spec :=
      { power := .powerOn
        cpu := 1
        memoryBytes := 1024
        apiSocketPath := some "s1"
        volumes := [{ name := "v1", device := "oda" }] }
    status := {} }

/-- Environment for the deleteMachine fixtures with the VM running and
every hypervisor call succeeding. -/
def envC1run : REnv := { rEnvOk with storeGet := .ok mDelC1 }

/-- Like `envC1run` but GET /vm.info reports the VM shut down (so the
running-VM PowerOff step is skipped). -/
def envC1off : REnv :=
  { rEnvOk with
    storeGet := .ok mDelC1
    vmm := { vmmEnvOk with vmInfoJson := fun _ => some vmShutdownM1 } }

/-- Like `envC1run` but the instance map holds only the socket `s1`, so
the PowerOff and DeleteVM calls that deleteMachine issues under the
machine id `m1` fail with ErrNotFound. -/
def envC1nf : REnv :=
  { rEnvOk with
    storeGet := .ok mDelC1
    vmm := { vmmEnvOk with instances := ["s1"] } }

/-- `mDelC1` after the finalizer drop. -/
def mDelC1done : Machine :=
  { mDelC1 with metadata := { mDelC1.metadata with finalizers := [] } }

end CHP

/-- C1: deleteMachine's guards read
`if err := call(); !errors.Is(err, vmm.ErrNotFound) { return … }`, so a
SUCCESSFUL (nil-error) Shutdown or DeleteVM aborts deletion with an
error and no volume, NIC, socket, directory or finalizer step runs —
only a NotFound outcome lets deletion proceed (and then all cleanup
steps run and deletion returns success). -/
theorem C1_delete_tolerates_only_notFound :
    CHP.deleteMachine CHP.envC1run CHP.mDelC1 =
      ([.shutdownVM "m1"], .error (.errorf "failed to power off machine")) ∧
    CHP.deleteMachine CHP.envC1off CHP.mDelC1 =
      ([.deleteVM "m1"], .error (.errorf "failed to kill VMM")) ∧
    CHP.deleteMachine CHP.envC1nf CHP.mDelC1 =
      ([.shutdownVM "m1", .deleteVM "m1", .volPluginDelete "v1", .freeSocket "s1",
        .removeMachineDir "m1", .storeUpdate CHP.mDelC1done], .ok ()) := by
  refine ⟨rfl, rfl, rfl⟩

namespace CHP

/-- A live machine `m1` with socket `s1`, finalizer present, no image,
no volumes, no NICs. -/
def mLiveC2 : Machine :=
  { metadata := { id := "m1", finalizers := ["machine"] }
    spec :=
      { power := .powerOn
        cpu := 1
        memoryBytes := 1024
        apiSocketPath := some "s1" }
    status := {} }

/-- Environment in which GET /vm.info reports a Running VM whose
platform uuid is `other-id`, different from the machine id `m1`. -/
def envC2 : REnv :=
  { rEnvOk with
    storeGet := .ok mLiveC2
    vmm := { vmmEnvOk with
      vmInfoJson := fun _ =>
        some { vmRunningM1 with
          config := { vmRunningM1.config with platform := some { uuid := some "other-id" } } } } }

end CHP

/-- C2 counterexample: with a platform uuid differing from the machine
id, the reconcile pass fails with the plain
"machine and vm IDs do not match" error and processNextWorkItem
re-enqueues `m1` rate-limited — the id IS retried, and the only store
writes of the pass leave the machine state Pending, so the record is
not marked failed. -/
theorem C2_counterexample :
    CHP.processNextWorkItem CHP.envC2 "m1" =
      (.addRateLimited "m1", [.storeUpdate CHP.mLiveC2, .storeUpdate CHP.mLiveC2]) ∧
    (CHP.reconcileMachine CHP.envC2 "m1").2 =
      .error (.errorf "machine and vm IDs do not match") ∧
    CHP.mLiveC2.status.state = .pending := by
  refine ⟨rfl, rfl, rfl⟩

/-- C2 (amended): a UUID mismatch makes reconcileTail fail immediately
with a plain error and no store write, and every failed reconcile pass
is re-enqueued rate-limited by processNextWorkItem; the record is not
marked failed and the id is retried. -/
theorem C2_uuid_mismatch_requeued (env : CHP.REnv) (machine : CHP.Machine)
    (vm : CHP.VmInfo)
    (h : ((vm.config.platform.getD { uuid := none }).uuid.getD "") ≠ machine.metadata.id) :
    CHP.reconcileTail env machine vm =
      ([], .error (.errorf "machine and vm IDs do not match")) ∧
    (∀ env2 id, (CHP.reconcileMachine env2 id).2.isOk = false →
      (CHP.processNextWorkItem env2 id).1 = .addRateLimited id) := by
  constructor
  · unfold CHP.reconcileTail
    rw [if_pos h]
  · intro env2 id hfail
    unfold CHP.processNextWorkItem
    cases hr : CHP.reconcileMachine env2 id with
    | mk tr r =>
      cases r with
      | error e => rfl
      | ok u =>
        rw [hr] at hfail
        exact absurd hfail (by simp [Except.isOk, Except.toBool])

/-- C2 witness: the amended statement applied to the concrete mismatch
environment. -/
theorem C2_uuid_mismatch_requeued_witness :
    CHP.reconcileTail CHP.envC2 CHP.mLiveC2
        { CHP.vmRunningM1 with
          config := { CHP.vmRunningM1.config with
            platform := some { uuid := some "other-id" } } } =
      ([], .error (.errorf "machine and vm IDs do not match")) ∧
    (CHP.processNextWorkItem CHP.envC2 "m1").1 = .addRateLimited "m1" := by
  have h := C2_uuid_mismatch_requeued CHP.envC2 CHP.mLiveC2
    { CHP.vmRunningM1 with
      config := { CHP.vmRunningM1.config with
        platform := some { uuid := some "other-id" } } }
    (by decide)
  refine ⟨h.1, ?_⟩
  exact h.2 CHP.envC2 "m1" (by rw [C2_counterexample.2.1]; rfl)

namespace CHP

/-- A live machine `m1` with finalizer present, no image and no
assigned control socket. -/
def mLiveC3 : Machine :=
  { metadata := { id := "m1", finalizers := ["machine"] }
    spec := { power := .powerOn, cpu := 1, memoryBytes := 1024 }
    status := {} }

/-- Environment with no free control socket in the pool. -/
def envC3 : REnv := { rEnvOk with storeGet := .ok mLiveC3, free := [] }

end CHP

/-- C3 counterexample: with no assigned socket and an empty free pool,
the reconcile pass returns success after the failed GetFreeApiSocket, so
processNextWorkItem FORGETS the machine id instead of re-enqueueing it
rate-limited: the id is silently dropped until some other event. -/
theorem C3_counterexample :
    CHP.processNextWorkItem CHP.envC3 "m1" = (.forget "m1", [.getFreeSocket]) ∧
    (CHP.reconcileMachine CHP.envC3 "m1").2 = .ok () := by
  refine ⟨rfl, rfl⟩

/-- C3 (amended): when a machine has no assigned control socket and the
free pool is empty, reconcileMachine swallows the NoCapacity error and
returns success right after the GetFreeApiSocket attempt (no further
call is made), so the work item is forgotten, not re-enqueued; the
failure is still not surfaced as an RPC error. -/
theorem C3_nocapacity_swallowed (env : CHP.REnv) (id : String) (machine : CHP.Machine)
    (h1 : env.storeGet = .ok machine)
    (h2 : machine.metadata.deletedAt = none)
    (h3 : machine.metadata.finalizers.contains CHP.MachineFinalizer = true)
    (h4 : env.makeDirs = none)
    (h5 : machine.spec.image = none)
    (h6 : machine.spec.apiSocketPath = none)
    (h7 : env.free = []) :
    CHP.reconcileMachine env id = ([.getFreeSocket], .ok ()) ∧
    CHP.processNextWorkItem env id = (.forget id, [.getFreeSocket]) := by
  have hrec : CHP.reconcileMachine env id = ([.getFreeSocket], .ok ()) := by
    unfold CHP.reconcileMachine
    rw [h1]
    simp only [h2, Option.isSome_none, Bool.false_eq_true, if_false, h3, not_true,
      if_false, h4]
    rw [CHP.reconcileImage, h5]
    simp only [h6, h7]
  refine ⟨hrec, ?_⟩
  unfold CHP.processNextWorkItem
  rw [hrec]

/-- C3 witness: the amended statement at the concrete no-capacity
environment. -/
theorem C3_nocapacity_swallowed_witness :
    CHP.reconcileMachine CHP.envC3 "m1" = ([.getFreeSocket], .ok ()) ∧
    CHP.processNextWorkItem CHP.envC3 "m1" = (.forget "m1", [.getFreeSocket]) := by
  exact C3_nocapacity_swallowed CHP.envC3 "m1" CHP.mLiveC3 rfl rfl rfl rfl rfl rfl rfl

namespace CHP

/-- Volumes kept by a reconcileVolumes pass: those with no deletion
timestamp, or whose current status is Attached. -/
def volKept (statuses : List VolumeStatus) (v : VolumeSpec) : Bool :=
  v.deletedAt.isNone || decide ((getVolumeStatus statuses v.name).state = .attached)

/-- NICs kept by a reconcileNics pass. -/
def nicKept (statuses : List NicStatus) (n : NicSpec) : Bool :=
  n.deletedAt.isNone || decide ((getNICStatus statuses n.name).state = .attached)

theorem reconcileVolumesLoop_spec (env : REnv) (statuses : List VolumeStatus)
    (vols : List VolumeSpec) :
    ∀ tr p, reconcileVolumesLoop env statuses vols = (tr, .ok p) →
      p.1 = vols.filter (volKept statuses) := by
  induction vols with
  | nil =>
    intro tr p h
    simp only [reconcileVolumesLoop, Prod.mk.injEq] at h
    obtain ⟨-, h2⟩ := h
    rw [List.filter_nil, ← Except.ok.inj h2]
  | cons v rest ih =>
    intro tr p h
    simp only [reconcileVolumesLoop] at h
    split at h
    · simp at h
    · split at h
      next hcond =>
        split at h
        · simp at h
        · obtain ⟨h1, h2⟩ := Prod.mk.injEq _ _ _ _ |>.mp h
          have hrest : reconcileVolumesLoop env statuses rest =
              ((reconcileVolumesLoop env statuses rest).1, .ok p) := by
            rw [← h2]
          have hkeep : volKept statuses v = false := by
            obtain ⟨t, ht⟩ := Option.isSome_iff_exists.mp hcond.1
            simp [volKept, ht, hcond.2]
          rw [List.filter_cons, hkeep]
          exact ih _ p hrest
      next hcond =>
        split at h
        · simp at h
        next applied heq =>
          obtain ⟨h1, h2⟩ := Prod.mk.injEq _ _ _ _ |>.mp h
          cases hr2 : (reconcileVolumesLoop env statuses rest).2 with
          | error e => rw [hr2] at h2; simp [Except.map] at h2
          | ok q =>
            rw [hr2] at h2
            simp only [Except.map] at h2
            obtain rfl := Except.ok.inj h2
            have hrest : reconcileVolumesLoop env statuses rest =
                ((reconcileVolumesLoop env statuses rest).1, .ok q) := by
              rw [← hr2]
            have hkeep : volKept statuses v = true := by
              rcases Decidable.not_and_iff_or_not.mp hcond with hna | hna
              · simp [volKept, Option.isNone_iff_eq_none,
                  Option.not_isSome_iff_eq_none.mp (by simpa using hna)]
              · simp [volKept, Decidable.not_not.mp hna]
            rw [List.filter_cons, hkeep]
            simpa using congrArg (fun l => v :: l) (ih _ q hrest)

theorem reconcileNicsLoop_spec (env : REnv) (statuses : List NicStatus)
    (nics : List NicSpec) :
    ∀ tr p, reconcileNicsLoop env statuses nics = (tr, .ok p) →
      p.1 = nics.filter (nicKept statuses) := by
  induction nics with
  | nil =>
    intro tr p h
    simp only [reconcileNicsLoop, Prod.mk.injEq] at h
    obtain ⟨-, h2⟩ := h
    rw [List.filter_nil, ← Except.ok.inj h2]
  | cons n rest ih =>
    intro tr p h
    simp only [reconcileNicsLoop] at h
    split at h
    next hcond =>
      split at h
      · simp at h
      · obtain ⟨h1, h2⟩ := Prod.mk.injEq _ _ _ _ |>.mp h
        have hrest : reconcileNicsLoop env statuses rest =
            ((reconcileNicsLoop env statuses rest).1, .ok p) := by
          rw [← h2]
        have hkeep : nicKept statuses n = false := by
          obtain ⟨t, ht⟩ := Option.isSome_iff_exists.mp hcond.1
          simp [nicKept, ht, hcond.2]
        rw [List.filter_cons, hkeep]
        exact ih _ p hrest
    next hcond =>
      split at h
      · simp at h
      next applied heq =>
        obtain ⟨h1, h2⟩ := Prod.mk.injEq _ _ _ _ |>.mp h
        cases hr2 : (reconcileNicsLoop env statuses rest).2 with
        | error e => rw [hr2] at h2; simp [Except.map] at h2
        | ok q =>
          rw [hr2] at h2
          simp only [Except.map] at h2
          obtain rfl := Except.ok.inj h2
          have hrest : reconcileNicsLoop env statuses rest =
              ((reconcileNicsLoop env statuses rest).1, .ok q) := by
            rw [← hr2]
          have hkeep : nicKept statuses n = true := by
            rcases Decidable.not_and_iff_or_not.mp hcond with hna | hna
            · simp [nicKept, Option.isNone_iff_eq_none,
                Option.not_isSome_iff_eq_none.mp (by simpa using hna)]
            · simp [nicKept, Decidable.not_not.mp hna]
          rw [List.filter_cons, hkeep]
          simpa using congrArg (fun l => n :: l) (ih _ q hrest)

theorem reconcileVolumes_ok (env : REnv) (machine : Machine) (tr : List Action)
    (m1 : Machine) (h : reconcileVolumes env machine = (tr, .ok m1)) :
    m1.spec.volumes = machine.spec.volumes.filter
      (volKept machine.status.volumeStatus) ∧
    m1.spec.power = machine.spec.power ∧
    m1.spec.cpu = machine.spec.cpu ∧
    m1.spec.memoryBytes = machine.spec.memoryBytes ∧
    m1.spec.image = machine.spec.image ∧
    m1.spec.ignition = machine.spec.ignition ∧
    m1.spec.apiSocketPath = machine.spec.apiSocketPath ∧
    m1.spec.networkInterfaces = machine.spec.networkInterfaces ∧
    m1.metadata = machine.metadata ∧
    m1.status.networkInterfaceStatus = machine.status.networkInterfaceStatus := by
  unfold reconcileVolumes at h
  split at h
  · simp at h
  next trL p heq =>
    split at h
    · simp at h
    · obtain ⟨h1, h2⟩ := Prod.mk.injEq _ _ _ _ |>.mp h
      obtain rfl := Except.ok.inj h2
      exact ⟨reconcileVolumesLoop_spec env _ _ _ _ heq, rfl, rfl, rfl, rfl, rfl, rfl,
        rfl, rfl, rfl⟩

theorem reconcileNics_ok (env : REnv) (machine : Machine) (tr : List Action)
    (m1 : Machine) (h : reconcileNics env machine = (tr, .ok m1)) :
    m1.spec.networkInterfaces = machine.spec.networkInterfaces.filter
      (nicKept machine.status.networkInterfaceStatus) ∧
    m1.spec.power = machine.spec.power ∧
    m1.spec.cpu = machine.spec.cpu ∧
    m1.spec.memoryBytes = machine.spec.memoryBytes ∧
    m1.spec.image = machine.spec.image ∧
    m1.spec.ignition = machine.spec.ignition ∧
    m1.spec.apiSocketPath = machine.spec.apiSocketPath ∧
    m1.spec.volumes = machine.spec.volumes ∧
    m1.metadata = machine.metadata := by
  unfold reconcileNics at h
  split at h
  · simp at h
  next trL p heq =>
    split at h
    · simp at h
    · obtain ⟨h1, h2⟩ := Prod.mk.injEq _ _ _ _ |>.mp h
      obtain rfl := Except.ok.inj h2
      exact ⟨reconcileNicsLoop_spec env _ _ _ _ heq, rfl, rfl, rfl, rfl, rfl, rfl,
        rfl, rfl⟩

end CHP

namespace CHP

/-- Machines written to the store during a trace, in order. -/
def storeWrites (tr : List Action) : List Machine :=
  tr.filterMap (fun a => match a with | .storeUpdate m => some m | _ => none)

/-- A volume spec with a deletion timestamp set. -/
def vDelC4 : VolumeSpec := { name := "v1", device := "oda", deletedAt := some 1 }

/-- A live machine whose only volume spec carries a deletion timestamp
while its status is still Pending. -/
def mLiveC4 : Machine :=
  { metadata := { id := "m1", finalizers := ["machine"] }
    spec :=
      { power := .powerOn
        cpu := 1
        memoryBytes := 1024
        apiSocketPath := some "s1"
        volumes := [vDelC4] }
    status := {} }

/-- Environment for the C4 counterexample pass. -/
def envC4 : REnv := { rEnvOk with storeGet := .ok mLiveC4 }

end CHP

/-- C4 counterexample: a successful non-deletion reconcile pass over a
machine read with one volume spec (deletion timestamp set, status not
Attached) writes the machine back with Spec.Volumes empty in every store
write of the pass: the set of spec entries written is NOT the set read. -/
theorem C4_counterexample :
    (CHP.reconcileMachine CHP.envC4 "m1").2 = .ok () ∧
    CHP.mLiveC4.spec.volumes = [CHP.vDelC4] ∧
    (CHP.storeWrites (CHP.reconcileMachine CHP.envC4 "m1").1).map
        (fun m => m.spec.volumes) = [[], [], [], [], []] := by
  refine ⟨rfl, rfl, rfl⟩

/-- C4 (amended): a successful reconcileVolumes followed by a successful
reconcileNics writes back a spec equal to the one read except that
Spec.Volumes and Spec.NetworkInterfaces lose exactly the entries whose
deletion timestamp is set and whose status state is not Attached (those
are handed to the plugin's Delete); every other spec field and the
metadata are unchanged. -/
theorem C4_spec_frame (env : CHP.REnv) (machine m1 m2 : CHP.Machine)
    (trV trN : List CHP.Action)
    (hV : CHP.reconcileVolumes env machine = (trV, .ok m1))
    (hN : CHP.reconcileNics env m1 = (trN, .ok m2)) :
    m2.spec.volumes =
      machine.spec.volumes.filter (CHP.volKept machine.status.volumeStatus) ∧
    m2.spec.networkInterfaces =
      machine.spec.networkInterfaces.filter
        (CHP.nicKept machine.status.networkInterfaceStatus) ∧
    m2.spec.power = machine.spec.power ∧
    m2.spec.cpu = machine.spec.cpu ∧
    m2.spec.memoryBytes = machine.spec.memoryBytes ∧
    m2.spec.image = machine.spec.image ∧
    m2.spec.ignition = machine.spec.ignition ∧
    m2.spec.apiSocketPath = machine.spec.apiSocketPath ∧
    m2.metadata = machine.metadata := by
  obtain ⟨hv1, hv2, hv3, hv4, hv5, hv6, hv7, hv8, hv9, hv10⟩ :=
    CHP.reconcileVolumes_ok env machine trV m1 hV
  obtain ⟨hn1, hn2, hn3, hn4, hn5, hn6, hn7, hn8, hn9⟩ :=
    CHP.reconcileNics_ok env m1 trN m2 hN
  refine ⟨?_, ?_, ?_, ?_, ?_, ?_, ?_, ?_, ?_⟩
  · rw [hn8, hv1]
  · rw [hn1, hv8, hv10]
  · rw [hn2, hv2]
  · rw [hn3, hv3]
  · rw [hn4, hv4]
  · rw [hn5, hv5]
  · rw [hn6, hv6]
  · rw [hn7, hv7]
  · rw [hn9, hv9]

namespace CHP

/-- A volume spec without deletion timestamp. -/
def vKeepC4 : VolumeSpec := { name := "v0", device := "odb" }

/-- A NIC spec without deletion timestamp. -/
def nKeepC4 : NicSpec := { name := "n1", networkId := "net-1" }

/-- A machine with one live and one deleted volume and one live NIC. -/
def mC4W : Machine :=
  { metadata := { id := "m1", finalizers := ["machine"] }
    spec :=
      { power := .powerOn
        cpu := 1
        memoryBytes := 1024
        apiSocketPath := some "s1"
        volumes := [vKeepC4, vDelC4]
        networkInterfaces := [nKeepC4] }
    status := {} }

/-- `mC4W` after reconcileVolumes: the deleted volume dropped, the live
one applied to Prepared. -/
def mC4Wv : Machine :=
  { mC4W with
    spec := { mC4W.spec with volumes := [vKeepC4] }
    status := { mC4W.status with
      volumeStatus :=
        [{ name := "v0", type := .file, path := "", handle := "h-v0",
           state := .prepared, size := 0 }] } }

/-- `mC4Wv` after reconcileNics: the NIC applied to Prepared. -/
def mC4Wn : Machine :=
  { mC4Wv with
    status := { mC4Wv.status with
      networkInterfaceStatus :=
        [{ name := "n1", handle := "", path := none, state := .prepared }] } }

end CHP

/-- C4 witness: both passes over the concrete machine succeed, and the
frame theorem yields the filtered volume list and untouched fields. -/
theorem C4_spec_frame_witness :
    CHP.reconcileVolumes CHP.rEnvOk CHP.mC4W =
      ([.volPluginApply "v0", .volPluginDelete "v1", .storeUpdate CHP.mC4Wv],
        .ok CHP.mC4Wv) ∧
    CHP.reconcileNics CHP.rEnvOk CHP.mC4Wv =
      ([.nicPluginApply "n1", .storeUpdate CHP.mC4Wn], .ok CHP.mC4Wn) ∧
    CHP.mC4Wn.spec.volumes = [CHP.vKeepC4] ∧
    CHP.mC4Wn.spec.networkInterfaces = [CHP.nKeepC4] ∧
    CHP.mC4Wn.spec.apiSocketPath = CHP.mC4W.spec.apiSocketPath ∧
    CHP.mC4Wn.metadata = CHP.mC4W.metadata := by
  have hV : CHP.reconcileVolumes CHP.rEnvOk CHP.mC4W =
      ([.volPluginApply "v0", .volPluginDelete "v1", .storeUpdate CHP.mC4Wv],
        .ok CHP.mC4Wv) := rfl
  have hN : CHP.reconcileNics CHP.rEnvOk CHP.mC4Wv =
      ([.nicPluginApply "n1", .storeUpdate CHP.mC4Wn], .ok CHP.mC4Wn) := rfl
  obtain ⟨h1, h2, h3, h4, h5, h6, h7, h8, h9⟩ :=
    C4_spec_frame CHP.rEnvOk CHP.mC4W CHP.mC4Wv CHP.mC4Wn _ _ hV hN
  exact ⟨hV, hN, by rw [h1]; rfl, by rw [h2]; rfl, h8, h9⟩

namespace CHP

/-- A volume spec with deletion timestamp for the C5 fixtures. -/
def vDelC5 : VolumeSpec := { name := "v1", device := "oda", deletedAt := some 1 }

/-- A live volume spec for the C5 fixtures. -/
def vLiveC5 : VolumeSpec := { name := "v1", device := "oda" }

/-- An Attached status entry with handle `h1`. -/
def stAttC5 : VolumeStatus :=
  { name := "v1", type := .file, path := "", handle := "h1", state := .attached, size := 0 }

/-- A Prepared status entry with handle `h1`. -/
def stPrepC5 : VolumeStatus :=
  { name := "v1", type := .file, path := "", handle := "h1", state := .prepared, size := 0 }

/-- A machine holding socket `s1` whose volume `v1` is deleted in spec
and Attached in status. -/
def mC5 : Machine :=
  { metadata := { id := "m1", finalizers := ["machine"] }
    spec :=
      { power := .powerOn
        cpu := 1
        memoryBytes := 1024
        apiSocketPath := some "s1"
        volumes := [vDelC5] }
    status := { volumeStatus := [stAttC5] } }

/-- A VM config whose live disk list contains exactly `h1`. -/
def cfgC5 : VmConfig :=
  { disks := some [{ id := some "h1" }], devices := some [],
    platform := some { uuid := some "m1" } }

end CHP

/-- C5 counterexample: for a volume with deletion timestamp set whose
handle is live, attachDetachDisks calls RemoveDevice and on success
keeps the status entry with its previous state Attached — NOT with state
Prepared as the claim says; Prepared is only written on a later pass
when the handle is no longer live. -/
theorem C5_counterexample :
    CHP.attachDetachDisks CHP.rEnvOk CHP.mC5 CHP.cfgC5 =
      ([.removeDeviceCall "s1" "h1", .storeUpdate CHP.mC5], .ok CHP.mC5) ∧
    CHP.mC5.status.volumeStatus.map CHP.VolumeStatus.state = [.attached] := by
  refine ⟨rfl, rfl⟩


/-- C5 (amended): in the disk attach/detach pass, per volume: a live-spec
volume whose handle is not among the live disk ids is skipped (entry
dropped) unless its status is Prepared, in which case AddDisk is called
and on success the entry is written with state Attached; AddDisk is only
ever called for Prepared, undeleted, non-live volumes; a deleted volume
whose handle is live gets RemoveDevice and on success its entry is kept
with its state UNCHANGED; a deleted volume whose handle is not live is
kept with state set to Prepared (the entry is dropped by the next
reconcileVolumes pass once its state is not Attached). -/
theorem C5_attach_detach_cases (env : CHP.REnv) (sock : String)
    (sts : List CHP.VolumeStatus) (cur : List String) (v : CHP.VolumeSpec) :
    (v.deletedAt = none →
      (CHP.getVolumeStatus sts v.name).handle ∉ cur →
      (CHP.getVolumeStatus sts v.name).state ≠ .prepared →
      CHP.attachDetachDisksLoop env sock sts cur [v] = ([], .ok [])) ∧
    (v.deletedAt = none →
      (CHP.getVolumeStatus sts v.name).handle ∉ cur →
      (CHP.getVolumeStatus sts v.name).state = .prepared →
      CHP.mgrAddDisk env.vmm sock (CHP.getVolumeStatus sts v.name) = none →
      CHP.attachDetachDisksLoop env sock sts cur [v] =
        ([.addDiskCall sock (CHP.getVolumeStatus sts v.name).handle],
          .ok [{ CHP.getVolumeStatus sts v.name with state := .attached }])) ∧
    (∀ vols tr r h, CHP.attachDetachDisksLoop env sock sts cur vols = (tr, r) →
      CHP.Action.addDiskCall sock h ∈ tr →
      ∃ v2, v2 ∈ vols ∧ (CHP.getVolumeStatus sts v2.name).handle = h ∧
        (CHP.getVolumeStatus sts v2.name).state = .prepared ∧
        v2.deletedAt = none ∧
        (CHP.getVolumeStatus sts v2.name).handle ∉ cur) ∧
    (∀ t, v.deletedAt = some t →
      (CHP.getVolumeStatus sts v.name).handle ∈ cur →
      CHP.mgrRemoveDevice env.vmm sock = none →
      CHP.attachDetachDisksLoop env sock sts cur [v] =
        ([.removeDeviceCall sock (CHP.getVolumeStatus sts v.name).handle],
          .ok [CHP.getVolumeStatus sts v.name])) ∧
    (∀ t, v.deletedAt = some t →
      (CHP.getVolumeStatus sts v.name).handle ∉ cur →
      CHP.attachDetachDisksLoop env sock sts cur [v] =
        ([], .ok [{ CHP.getVolumeStatus sts v.name with state := .prepared }])) := by
  refine ⟨?_, ?_, ?_, ?_, ?_⟩
  · intro hdel hlive hprep
    simp [CHP.attachDetachDisksLoop, Except.map, hdel, hlive, hprep]
  · intro hdel hlive hprep hadd
    simp [CHP.attachDetachDisksLoop, Except.map, hdel, hlive, hprep, hadd]
  · intro vols
    induction vols with
    | nil =>
      intro tr r h hl hm
      simp only [CHP.attachDetachDisksLoop, Prod.mk.injEq] at hl
      rw [← hl.1] at hm
      exact absurd hm (List.not_mem_nil _)
    | cons v2 rest ih =>
      intro tr r h hl hm
      have etaRest : CHP.attachDetachDisksLoop env sock sts cur rest =
          ((CHP.attachDetachDisksLoop env sock sts cur rest).1,
            (CHP.attachDetachDisksLoop env sock sts cur rest).2) := rfl
      simp only [CHP.attachDetachDisksLoop] at hl
      split at hl
      next hdel2 =>
        split at hl
        next hlive2 =>
          obtain ⟨h1, h2⟩ := Prod.mk.injEq _ _ _ _ |>.mp hl
          rw [← h1] at hm
          obtain ⟨v3, hv3, hrest⟩ := ih _ _ h etaRest hm
          exact ⟨v3, List.mem_cons_of_mem _ hv3, hrest⟩
        next hlive2 =>
          split at hl
          next hprep2 =>
            obtain ⟨v3, hv3, hrest⟩ := ih _ _ h hl hm
            exact ⟨v3, List.mem_cons_of_mem _ hv3, hrest⟩
          next hprep2 =>
            split at hl
            next e hAdd =>
              obtain ⟨h1, h2⟩ := Prod.mk.injEq _ _ _ _ |>.mp hl
              rw [← h1] at hm
              rcases List.mem_cons.mp hm with heq | hnil
              · obtain ⟨-, hh⟩ := CHP.Action.addDiskCall.injEq _ _ _ _ |>.mp heq
                refine ⟨v2, List.mem_cons_self _ _, hh.symm,
                  Decidable.not_not.mp hprep2, hdel2, ?_⟩
                simpa using hlive2
              · exact absurd hnil (List.not_mem_nil _)
            next hAdd =>
              obtain ⟨h1, h2⟩ := Prod.mk.injEq _ _ _ _ |>.mp hl
              rw [← h1] at hm
              rcases List.mem_cons.mp hm with heq | hrestm
              · obtain ⟨-, hh⟩ := CHP.Action.addDiskCall.injEq _ _ _ _ |>.mp heq
                refine ⟨v2, List.mem_cons_self _ _, hh.symm,
                  Decidable.not_not.mp hprep2, hdel2, ?_⟩
                simpa using hlive2
              · obtain ⟨v3, hv3, hrest⟩ := ih _ _ h etaRest hrestm
                exact ⟨v3, List.mem_cons_of_mem _ hv3, hrest⟩
      next t2 hdel2 =>
        split at hl
        next hlive2 =>
          split at hl
          next e hRem =>
            obtain ⟨h1, h2⟩ := Prod.mk.injEq _ _ _ _ |>.mp hl
            rw [← h1] at hm
            rcases List.mem_cons.mp hm with heq | hnil
            · exact absurd heq (by simp)
            · exact absurd hnil (List.not_mem_nil _)
          next hRem =>
            obtain ⟨h1, h2⟩ := Prod.mk.injEq _ _ _ _ |>.mp hl
            rw [← h1] at hm
            rcases List.mem_cons.mp hm with heq | hrestm
            · exact absurd heq (by simp)
            · obtain ⟨v3, hv3, hrest⟩ := ih _ _ h etaRest hrestm
              exact ⟨v3, List.mem_cons_of_mem _ hv3, hrest⟩
        next hlive2 =>
          obtain ⟨h1, h2⟩ := Prod.mk.injEq _ _ _ _ |>.mp hl
          rw [← h1] at hm
          obtain ⟨v3, hv3, hrest⟩ := ih _ _ h etaRest hm
          exact ⟨v3, List.mem_cons_of_mem _ hv3, hrest⟩
  · intro t hdel hlive hrem
    simp [CHP.attachDetachDisksLoop, Except.map, hdel, hlive, hrem]
  · intro t hdel hlive
    simp [CHP.attachDetachDisksLoop, Except.map, hdel, hlive]

/-- C5 witness: the amended statement at concrete inputs — a Prepared
non-live volume is added and marked Attached; a deleted live volume is
removed and kept Attached; a deleted non-live volume is kept Prepared. -/
theorem C5_attach_detach_cases_witness :
    CHP.attachDetachDisksLoop CHP.rEnvOk "s1" [CHP.stPrepC5] [] [CHP.vLiveC5] =
      ([.addDiskCall "s1" "h1"], .ok [{ CHP.stPrepC5 with state := .attached }]) ∧
    CHP.attachDetachDisksLoop CHP.rEnvOk "s1" [CHP.stAttC5] ["h1"] [CHP.vDelC5] =
      ([.removeDeviceCall "s1" "h1"], .ok [CHP.stAttC5]) ∧
    CHP.attachDetachDisksLoop CHP.rEnvOk "s1" [CHP.stAttC5] [] [CHP.vDelC5] =
      ([], .ok [{ CHP.stAttC5 with state := .prepared }]) := by
  refine ⟨?_, ?_, ?_⟩
  · exact (C5_attach_detach_cases CHP.rEnvOk "s1" [CHP.stPrepC5] [] CHP.vLiveC5).2.1
      rfl (by simp) rfl rfl
  · exact (C5_attach_detach_cases CHP.rEnvOk "s1" [CHP.stAttC5] ["h1"]
      CHP.vDelC5).2.2.2.1 1 rfl (by decide) rfl
  · exact (C5_attach_detach_cases CHP.rEnvOk "s1" [CHP.stAttC5] []
      CHP.vDelC5).2.2.2.2 1 rfl (by simp)
